import Mathlib

set_option autoImplicit false

/-
Verification of the dialogue-orchestrator and pricing core of the
Chatbot-Barista repository.  The Python sources embedded here are
  src/domain/models.py                (MenuItem, OrderItem, Order)
  src/domain/pricing/price_calculator.py  (PriceCalculator)
  src/application/service.py          (ChatbotService)
  src/infrastructure/nlp_processor.py (ExtractedEntities)
Conventions of the embedding:
  - Python floats carrying money are modelled as exact rationals (ℚ).
  - Python dicts that are iterated in insertion order are modelled as
    association lists (List (String × _)) with lookup `alookup`; dict
    assignment is modelled by an insert-or-overwrite operation that keeps
    the original position.
  - A Python function that can raise is modelled with Except Unit; a
    method that can both mutate the conversation state and raise is
    modelled with an explicit result type carrying the state at the time
    of the raise, matching Python semantics where mutations performed
    before an exception persist.
  - String helpers (lower/capitalize/title) are modelled for the ASCII
    alphabet, which covers every string they are applied to in the code
    paths under verification.
-/

namespace Barista

/-- Lookup in an insertion-ordered dict modelled as an association list:
first entry with the given key wins (keys are unique under `dict_insert`). -/
def alookup {α : Type} : List (String × α) → String → Option α
  | [], _ => none
  | p :: t, x => if x = p.1 then some p.2 else alookup t x

/-- Two-decimal rendering of a money amount, mirroring the Python format
specifier `:.2f` for the nonnegative amounts appearing in menu data. -/
def formatMoney (q : ℚ) : String :=
  let n : ℤ := round (q * 100)
  let ip : ℤ := n / 100
  let cents : ℕ := (n % 100).toNat
  toString ip ++ "." ++ (if cents < 10 then "0" ++ toString cents else toString cents)

/-- Python `str.lower`, restricted to ASCII letters. -/
def pyLower (s : String) : String :=
  String.mk (s.data.map Char.toLower)

/-- Drop leading whitespace characters. -/
def dropLeadingWs : List Char → List Char
  | [] => []
  | c :: cs => if c.isWhitespace then dropLeadingWs cs else c :: cs

/-- Python `str.strip` with no argument: trim surrounding whitespace. -/
def pyStrip (s : String) : String :=
  String.mk ((dropLeadingWs (dropLeadingWs s.data).reverse).reverse)

/-- Splitting a character list on the character ':', keeping empty
segments, with the semantics of Python `str.split(":")`. -/
def splitColonChars : List Char → List (List Char)
  | [] => [[]]
  | c :: cs =>
    if c = ':' then [] :: splitColonChars cs
    else
      match splitColonChars cs with
      | [] => [[c]]
      | g :: gs => (c :: g) :: gs

/-- Python `customization.split(":")`. -/
def pySplitColon (s : String) : List String :=
  (splitColonChars s.data).map String.mk

/-- Python `str.capitalize`, restricted to ASCII letters: first character
upper-cased, the rest lower-cased. -/
def pyCapitalize (s : String) : String :=
  match s.data with
  | [] => ""
  | c :: cs => String.mk (c.toUpper :: cs.map Char.toLower)

/-- Helper for `pyTitle`: the boolean records whether the previous
character was alphabetic. -/
def titleChars : Bool → List Char → List Char
  | _, [] => []
  | prevAlpha, c :: cs =>
    (if c.isAlpha then (if prevAlpha then c.toLower else c.toUpper) else c) ::
      titleChars c.isAlpha cs

/-- Python `str.title`, restricted to ASCII letters. -/
def pyTitle (s : String) : String :=
  String.mk (titleChars false s.data)

/-- Helper for `strContainsSub`, walking down the haystack. -/
def containsSubAux (n : List Char) : List Char → Bool
  | [] => n.isEmpty
  | c :: t => n.isPrefixOf (c :: t) || containsSubAux n t

/-- Python's `needle in hay` substring test. -/
def strContainsSub (hay needle : String) : Bool :=
  containsSubAux needle.data hay.data

/-- MenuItem from src/domain/models.py.  The `calorias` mapping is
Modelled from the spec: the source `MenuItem` dataclass defines no
`get_calories` method and no calorie field, yet service.py calls
`item.get_calories(size)` throughout; spec §3 states that a MenuItem
carries a size→calorie mapping with absent sizes treated as 0. -/
structure MenuItem where
  id : String
  name : String
  category : String
  sizes : List String
  prices : List (String × ℚ)
  customizations : List (String × List String)
  keywords : List String
  calorias : List (String × ℤ)
deriving DecidableEq, Repr

/-- MenuItem.get_base_price: `self.prices.get(size, 0.0)`. -/
def MenuItem.get_base_price (i : MenuItem) (size : String) : ℚ :=
  (alookup i.prices size).getD 0

/-- Modelled from the spec: `MenuItem.get_calories` is absent from
src/domain/models.py although service.py calls it; spec §3 prescribes a
size→calorie lookup with 0 for absent sizes. -/
def MenuItem.get_calories (i : MenuItem) (size : String) : ℤ :=
  (alookup i.calorias size).getD 0

/-- OrderItem from src/domain/models.py. -/
structure OrderItem where
  menu_item : MenuItem
  size : String
  customizations : List String
  quantity : ℤ := 1
deriving DecidableEq, Repr

/-- OrderItem.calculate_price: base price for the chosen size times the
quantity; customization surcharges are not included (the source carries a
comment noting that surcharge logic could be added here). -/
def OrderItem.calculate_price (i : OrderItem) : ℚ :=
  i.menu_item.get_base_price i.size * (i.quantity : ℚ)

/-- Order from src/domain/models.py. -/
structure Order where
  items : List OrderItem := []
  total : ℚ := 0
deriving DecidableEq, Repr

/-- Order.calculate_total as a pure value:
`sum(item.calculate_price() for item in self.items)`. -/
def orderTotalValue (items : List OrderItem) : ℚ :=
  (items.map OrderItem.calculate_price).sum

/-- Order.add_item: append then recompute the stored total. -/
def Order.add_item (o : Order) (i : OrderItem) : Order :=
  let items := o.items ++ [i]
  { items := items, total := orderTotalValue items }

/-- Order.remove_item: Python `list.remove` deletes the first
structurally-equal element and raises ValueError when absent; afterwards
the stored total is recomputed. -/
def Order.remove_item (o : Order) (i : OrderItem) : Except Unit Order :=
  if i ∈ o.items then
    let items := o.items.erase i
    .ok { items := items, total := orderTotalValue items }
  else
    .error ()

/-- PriceBreakdown from src/domain/pricing/price_calculator.py. -/
structure PriceBreakdown where
  base_price : ℚ
  customization_prices : List (String × ℚ)
  total : ℚ
deriving DecidableEq, Repr

/-- The fixed surcharge table built in PriceCalculator.__init__. -/
def customization_price_table : List (String × List (String × ℚ)) :=
  [("leche", [("almendra", 1/2), ("soya", 1/2), ("avellana", 1/2)]),
   ("shots", [("extra", 3/4), ("doble", 1)]),
   ("syrups", [("vainilla", 1/2), ("caramelo", 1/2), ("avellana", 1/2)])]

/-- The two nested membership tests of calculate_item_price:
`category in table` and then `option in table[category]`. -/
def surcharge_lookup (cat opt : String) : Option ℚ :=
  match alookup customization_price_table cat with
  | none => none
  | some opts => alookup opts opt

/-- Python dict assignment `d[k] = v` on an insertion-ordered dict:
overwrite in place when the key exists, else append. -/
def dict_insert (d : List (String × ℚ)) (k : String) (v : ℚ) : List (String × ℚ) :=
  if (alookup d k).isSome then
    d.map (fun p => if p.1 = k then (k, v) else p)
  else
    d ++ [(k, v)]

/-- The tuple unpacking `category, option = customization.split(":")`:
it succeeds exactly when the split has two parts and raises ValueError
otherwise. -/
def splitTwo (t : String) : Option (String × String) :=
  match pySplitColon t with
  | [cat, opt] => some (cat, opt)
  | _ => none

/-- The customization loop of calculate_item_price. -/
def accumulate_customizations (q : ℤ) :
    List String → List (String × ℚ) → Except Unit (List (String × ℚ))
  | [], acc => .ok acc
  | t :: ts, acc =>
    match splitTwo t with
    | none => .error ()
    | some (cat, opt) =>
      match surcharge_lookup cat opt with
      | some p => accumulate_customizations q ts (dict_insert acc t (p * (q : ℚ)))
      | none => accumulate_customizations q ts acc

/-- PriceCalculator.calculate_item_price. -/
def calculate_item_price (item : OrderItem) : Except Unit PriceBreakdown :=
  let base_price := item.menu_item.get_base_price item.size
  match accumulate_customizations item.quantity item.customizations [] with
  | .error e => .error e
  | .ok cp =>
    .ok { base_price := base_price * (item.quantity : ℚ)
          customization_prices := cp
          total := base_price * (item.quantity : ℚ) + (cp.map Prod.snd).sum }

/-- PriceCalculator.calculate_order_total: left-to-right sum of
per-item totals, propagating the first raised exception. -/
def calculate_order_total : List OrderItem → Except Unit ℚ
  | [] => .ok 0
  | i :: is =>
    match calculate_item_price i with
    | .error e => .error e
    | .ok bd =>
      match calculate_order_total is with
      | .error e => .error e
      | .ok r => .ok (bd.total + r)

/-- A token is well formed when splitting on ":" yields exactly two
parts, the only shape the unpacking in calculate_item_price accepts. -/
def tokenOK (t : String) : Bool :=
  (splitTwo t).isSome

/-- All customization tokens of an item are well formed. -/
def itemOK (i : OrderItem) : Bool :=
  i.customizations.all tokenOK

/-- The surcharge a single token would earn: split into exactly two
parts and look both up in the fixed table. -/
def matched_surcharge (t : String) : Option ℚ :=
  match splitTwo t with
  | some (cat, opt) => surcharge_lookup cat opt
  | none => none

/-- One mutation step on an Order, as used by the order-total invariant:
either Order.add_item or Order.remove_item. -/
inductive OrderOp where
  | add (i : OrderItem)
  | remove (i : OrderItem)

/-- Apply one add/remove operation (remove may raise ValueError). -/
def apply_order_op (o : Order) : OrderOp → Except Unit Order
  | .add i => .ok (o.add_item i)
  | .remove i => o.remove_item i

/-- A concrete beverage used by witnesses and counterexamples. -/
def latte : MenuItem :=
  { id := "latte", name := "Latte", category := "bebidas calientes",
    sizes := ["tall", "grande", "venti"],
    prices := [("tall", 3), ("grande", 4), ("venti", 9/2)],
    customizations := [("leche", ["almendra", "soya"])],
    keywords := ["latte"],
    calorias := [("tall", 150), ("grande", 190), ("venti", 230)] }

/-- The empty order `Order()`. -/
def emptyOrder : Order := { items := [], total := 0 }

/-- A latte order item with no customizations. -/
def plainLatteItem : OrderItem :=
  { menu_item := latte, size := "tall", customizations := [], quantity := 1 }

/-- A latte order item with the surcharged customization leche:almendra. -/
def almondLatteItem : OrderItem :=
  { menu_item := latte, size := "tall", customizations := ["leche:almendra"], quantity := 1 }

/-- An item carrying a token with two colons. -/
def doubleColonItem : OrderItem :=
  { menu_item := latte, size := "tall", customizations := ["shots:doble:x"], quantity := 1 }

/-- An item carrying a token without any colon. -/
def noColonItem : OrderItem :=
  { menu_item := latte, size := "tall", customizations := ["leche"], quantity := 1 }

/-- ExtractedEntities from src/infrastructure/nlp_processor.py: optional
bebida, optional tamaño (spelled tamano here), and a list of
personalizaciones (the post-init turns None into the empty list).  The
dataclass defines NO alimento attribute. -/
structure ExtractedEntities where
  bebida : Option String := none
  tamano : Option String := none
  personalizaciones : List String := []
deriving DecidableEq, Repr

/-- Python truthiness of an Optional[str]: None and the empty string are
falsy. -/
def optStrTruthy : Option String → Bool
  | none => false
  | some s => if s = "" then false else true

/-- Accessing `entities.alimento`: ExtractedEntities defines no such
attribute, so the attribute access raises AttributeError. -/
def getAlimento (_ : ExtractedEntities) : Except Unit String :=
  .error ()

/-- InteractionMode from src/application/service.py. -/
inductive InteractionMode where
  | PURCHASE
  | QUERY
deriving DecidableEq, Repr

/-- Response from src/application/models.py. -/
structure Response where
  text : String
  suggested_actions : List String
  order : Option Order := none
deriving DecidableEq, Repr

/-- ConversationState from src/application/service.py.  The
pending_payment field is a dynamic attribute in Python (set only by
_handle_order_confirmation and read through hasattr); a state on which it
was never set behaves exactly like pending_payment = false, which is the
default here. -/
structure ConversationState where
  current_intent : Option String := none
  predicted_intent : Option String := none
  current_order : Option Order := none
  pending_confirmation : Bool := false
  pending_intent_confirmation : Bool := false
  last_entities : Option ExtractedEntities := none
  last_input : Option String := none
  mode : InteractionMode := .QUERY
  context : List (String × String) := []
  pending_payment : Bool := false
deriving DecidableEq, Repr

/-- Result of a Python method call on the service: the method either
returns a value or raises; in both cases the conversation state carries
every mutation performed before returning or raising. -/
inductive PyRes (α : Type) where
  | ok (a : α) (s : ConversationState)
  | exn (s : ConversationState)
deriving DecidableEq, Repr

/-- Result of a handler whose only state access is reading and writing
conversation_state.current_order (checked against the Python body). -/
inductive OrderOut where
  | ok (r : Response) (oo : Option Order)
  | exn (oo : Option Order)
deriving DecidableEq, Repr

/-- Lift a current_order-only handler to the full conversation state. -/
def liftOrderHandler (f : Option Order → OrderOut) (s : ConversationState) :
    PyRes Response :=
  match f s.current_order with
  | .ok r oo => .ok r { s with current_order := oo }
  | .exn oo => .exn { s with current_order := oo }

/-- The categorized menu dict consumed by _format_menu_summary: category
name → item display names (field "nombre"), for "bebidas" always and for
"alimentos" when present. -/
structure MenuData where
  bebidas : List (String × List String)
  alimentos : Option (List (String × List String))
deriving DecidableEq, Repr

/-- One turn's behavior of the external collaborators
(nlp_processor.process_input, intent_classifier.predict and the menu
repository): each field is the outcome the call would produce if made,
with Except.error modelling the call raising. -/
structure Collaborators where
  nlp : Except Unit ExtractedEntities
  classify : Except Unit (String × ℚ)
  searchItem : String → Except Unit (Option MenuItem)
  searchFoodItem : String → Except Unit (Option MenuItem)
  getMenu : Except Unit MenuData

/-- The per-size price/calorie lines used by _handle_order_intent and
_handle_price_query. -/
def sizeCaloriesLines (mi : MenuItem) : String :=
  String.join (mi.prices.map (fun p =>
    "- " ++ pyCapitalize p.1 ++ ": $" ++ formatMoney p.2 ++ " (" ++
      toString (mi.get_calories p.1) ++ " calorías)\n"))

/-- The no-size prompt of _handle_order_intent. -/
def sizePromptText (mi : MenuItem) : String :=
  "Encontré " ++ mi.name ++ ". Precios y calorías disponibles:\n" ++
    sizeCaloriesLines mi ++ "\n¿Qué tamaño prefieres?"

/-- The except-branch Response shared by _handle_order_intent and
_handle_food_order_intent. -/
def orderErrorResponse : Response :=
  { text := "Lo siento, ocurrió un error al procesar tu orden. ¿Podrías intentarlo de nuevo?",
    suggested_actions := ["Ver menú", "Empezar de nuevo"], order := none }

/-- The fall-through Response of _handle_order_intent when no beverage
entity resolves to a menu item. -/
def beveragePromptResponse : Response :=
  { text := "¿Qué bebida te gustaría ordenar? Puedo mostrarte nuestro menú con precios.",
    suggested_actions := ["Ver menú", "Ver bebidas populares"], order := none }

/-- The per-customization price lines of _handle_order_intent. -/
def customizationPriceLines (cp : List (String × ℚ)) : String :=
  String.join (cp.map (fun c => "\n- " ++ c.1 ++ ": +$" ++ formatMoney c.2))

/-- The price-breakdown text block of _handle_order_intent. -/
def priceBreakdownText (bd : PriceBreakdown) : String :=
  "\nPrecio base: $" ++ formatMoney bd.base_price ++
    (if bd.customization_prices.isEmpty then "" else
      "\nPersonalizaciones:" ++ customizationPriceLines bd.customization_prices) ++
    "\nTotal: $" ++ formatMoney bd.total

/-- The added-beverage confirmation text of _handle_order_intent. -/
def addedBeverageText (mi : MenuItem) (it : OrderItem) (e : ExtractedEntities)
    (bd : PriceBreakdown) : String :=
  "He agregado un " ++ mi.name ++ " " ++ it.size ++
    (if e.personalizaciones.isEmpty then "" else
      " con " ++ String.intercalate ", " e.personalizaciones) ++
    "." ++ priceBreakdownText bd ++ "\n\n¿Deseas agregar algo más?"

/-- ChatbotService._handle_order_intent.  The method reads and writes
only conversation_state.current_order; its try/except turns every raise
(menu lookup or price calculation) into orderErrorResponse with the
mutations performed so far kept. -/
def handle_order_intent (searchItem : String → Except Unit (Option MenuItem))
    (e? : Option ExtractedEntities) (oo : Option Order) : OrderOut :=
  match e? with
  | some e =>
    if optStrTruthy e.bebida then
      match searchItem (e.bebida.getD "") with
      | .error _ => .ok orderErrorResponse oo
      | .ok none => .ok beveragePromptResponse oo
      | .ok (some item) =>
        if optStrTruthy e.tamano then
          let order_item : OrderItem :=
            { menu_item := item, size := e.tamano.getD "",
              customizations := e.personalizaciones, quantity := 1 }
          match calculate_item_price order_item with
          | .error _ => .ok orderErrorResponse oo
          | .ok bd =>
            let o' := (oo.getD emptyOrder).add_item order_item
            .ok { text := addedBeverageText item order_item e bd,
                  suggested_actions := ["Ver personalizaciones", "Confirmar orden", "Agregar más"],
                  order := some o' } (some o')
        else
          .ok { text := sizePromptText item, suggested_actions := item.sizes,
                order := oo } oo
    else
      .ok beveragePromptResponse oo
  | none => .ok beveragePromptResponse oo

/-- ChatbotService._handle_food_order_intent.  It first installs a fresh
Order when current_order is None; `entities.alimento` then raises
AttributeError whenever entities is present, caught by the handler's
except clause; the remaining body is kept although unreachable. -/
def handle_food_order_intent (searchFoodItem : String → Except Unit (Option MenuItem))
    (e? : Option ExtractedEntities) (oo : Option Order) : OrderOut :=
  let oo1 : Option Order := some (oo.getD emptyOrder)
  match e? with
  | some e =>
    match getAlimento e with
    | .error _ => .ok orderErrorResponse oo1
    | .ok alimento =>
      match searchFoodItem alimento with
      | .error _ => .ok orderErrorResponse oo1
      | .ok (some item) =>
        let order_item : OrderItem :=
          { menu_item := item, size := "individual",
            customizations := e.personalizaciones, quantity := 1 }
        let o' := (oo1.getD emptyOrder).add_item order_item
        .ok { text := (if e.personalizaciones.isEmpty then
                  "He agregado " ++ item.name ++ ". "
                else
                  "He agregado " ++ item.name ++ " con " ++
                    String.intercalate ", " e.personalizaciones ++ ". ") ++
                "¿Deseas agregar algo más?",
              suggested_actions := ["Confirmar orden", "Agregar más", "Ver orden actual"],
              order := some o' } (some o')
      | .ok none =>
        .ok { text := "Lo siento, no encontré ese alimento en nuestro menú. ¿Te gustaría ver las opciones disponibles?",
              suggested_actions := ["Ver menú", "Ver comidas disponibles"],
              order := none } oo1
  | none =>
    .ok { text := "¿Qué te gustaría ordenar de comer?",
          suggested_actions := ["Ver menú de comidas", "Ver opciones populares"],
          order := none } oo1

/-- One item block of _format_order_summary. -/
def summaryItemText (it : OrderItem) (bd : PriceBreakdown) : String :=
  "- " ++ it.menu_item.name ++ " (" ++ it.size ++ ")" ++
    (if it.customizations.isEmpty then "" else
      " con " ++ String.intercalate ", " it.customizations) ++
    "\n  Base: $" ++ formatMoney bd.base_price ++
    " (" ++ toString (it.menu_item.get_calories it.size) ++ " calorías)" ++
    String.join (bd.customization_prices.map (fun c =>
      "\n  " ++ c.1 ++ ": +$" ++ formatMoney c.2)) ++
    "\n  Subtotal: $" ++ formatMoney bd.total

/-- The item loop of _format_order_summary: builds the per-item blocks
and the running calorie sum, raising at the first item whose price
calculation raises. -/
def summaryLinesAux : List OrderItem → Except Unit (List String × ℤ)
  | [] => .ok ([], 0)
  | it :: its =>
    match calculate_item_price it with
    | .error e => .error e
    | .ok bd =>
      match summaryLinesAux its with
      | .error e => .error e
      | .ok (ls, cal) =>
        .ok (summaryItemText it bd :: ls, it.menu_item.get_calories it.size + cal)

/-- ChatbotService._format_order_summary. -/
def format_order_summary (o : Order) : Except Unit String :=
  match summaryLinesAux o.items with
  | .error e => .error e
  | .ok (ls, cal) =>
    match calculate_order_total o.items with
    | .error e => .error e
    | .ok total =>
      .ok (String.intercalate "\n"
        (ls ++ ["\nTotal Final: $" ++ formatMoney total,
                "Calorías Totales: " ++ toString cal]))

/-- ChatbotService._format_current_order_summary (empty string when there
is no order or it has no items). -/
def format_current_order_summary (oo : Option Order) : Except Unit String :=
  match oo with
  | none => .ok ""
  | some o =>
    if o.items.isEmpty then .ok ""
    else
      match calculate_order_total o.items with
      | .error e => .error e
      | .ok total =>
        .ok ("\nTu orden actual:" ++
          String.join (o.items.map (fun it =>
            "\n- " ++ it.menu_item.name ++ " (" ++ it.size ++ ")" ++
              (if it.customizations.isEmpty then "" else
                " con " ++ String.intercalate ", " it.customizations))) ++
          "\nTotal: $" ++ formatMoney total)

/-- ChatbotService._create_response_with_order. -/
def create_response_with_order (text : String) (actions : List String)
    (oo : Option Order) : Except Unit Response :=
  match format_current_order_summary oo with
  | .error e => .error e
  | .ok summary =>
    .ok { text := if summary = "" then text else text ++ "\n" ++ summary,
          suggested_actions := actions, order := oo }

/-- One category block of _format_menu_summary. -/
def menuCategoryBlock (cat : String) (names : List String) : String :=
  pyTitle cat ++ ":\n- " ++ String.intercalate "\n- " names

/-- ChatbotService._format_menu_summary. -/
def format_menu_summary (m : MenuData) : String :=
  String.intercalate "\n\n"
    ((m.bebidas.map (fun c => menuCategoryBlock c.1 c.2)) ++
      match m.alimentos with
      | none => []
      | some als => "\nAlimentos:" :: als.map (fun c => menuCategoryBlock c.1 c.2))

/-- ChatbotService._handle_menu_intent: it only reads current_order
(through _create_response_with_order); a raise from the menu repository
or from the response builder propagates. -/
def handle_menu_intent (getMenu : Except Unit MenuData) (oo : Option Order) :
    OrderOut :=
  match getMenu with
  | .error _ => .exn oo
  | .ok m =>
    match create_response_with_order
        ("Este es nuestro menú:\n" ++ format_menu_summary m ++ "\n\n¿Qué te gustaría hacer?")
        ["Ordenar algo", "Consultar precios", "Ver bebidas", "Ver alimentos"] oo with
    | .error _ => .exn oo
    | .ok r => .ok r oo

/-- ChatbotService._handle_unknown_intent (body reached only through the
single-argument call in process_message). -/
def handle_unknown_intent (oo : Option Order) : OrderOut :=
  match create_response_with_order
      "No estoy seguro de lo que quieres hacer. ¿Podrías ser más específico?"
      ["Ver menú", "Hacer pedido", "Ver precios"] oo with
  | .error _ => .exn oo
  | .ok r => .ok r oo

/-- The found-product text of _handle_price_query. -/
def priceQueryFoundText (mi : MenuItem) : String :=
  "Los precios y calorías para " ++ mi.name ++ " son:\n" ++ sizeCaloriesLines mi

/-- ChatbotService._handle_price_query.  When no beverage resolves, the
guard `if not product and entities.alimento` evaluates
`entities.alimento`, which raises AttributeError and propagates (the
method has no try/except). -/
def handle_price_query (searchItem : String → Except Unit (Option MenuItem))
    (_text : String) (e : ExtractedEntities) (oo : Option Order) : OrderOut :=
  match (if optStrTruthy e.bebida then searchItem (e.bebida.getD "") else .ok none) with
  | .error _ => .exn oo
  | .ok (some product) =>
    match create_response_with_order
        (priceQueryFoundText product ++ "\n¿Te gustaría ordenarlo?")
        ["Ordenar " ++ product.name, "Consultar otro precio", "Ver menú completo"] oo with
    | .error _ => .exn oo
    | .ok r => .ok r oo
  | .ok none => .exn oo

/-- The payment-option block shown by _handle_order_confirmation. -/
def paymentOptionsText : String :=
  "\n* Seleccione el medio de pago:\n1. Efectivo\n2. Transferencia\n3. Tarjeta Crédito/Débito\n4. Aplicación de pago"

/-- ChatbotService._handle_order_confirmation.  The truthiness test
`if self.conversation_state.current_order` is true for ANY Order object
(dataclasses are always truthy), i.e. exactly when current_order is not
None; pending_payment is set before the summary is rendered, so it stays
set even when rendering raises. -/
def handle_order_confirmation (s : ConversationState) : PyRes Response :=
  match s.current_order with
  | some order =>
    let s1 := { s with pending_payment := true }
    match format_order_summary order with
    | .error _ => .exn s1
    | .ok summary =>
      .ok { text := "¡Gracias por tu orden! Tu pedido ha sido confirmado:\n" ++
              summary ++ "\n" ++ paymentOptionsText,
            suggested_actions := [], order := some order } s1
  | none =>
    .ok { text := "No hay una orden activa para confirmar. ¿Te gustaría ordenar algo?",
          suggested_actions := ["Ver menú", "Hacer un pedido"], order := none } s

/-- The Response of _handle_order_cancellation. -/
def cancellationResponse : Response :=
  { text := "He cancelado tu orden. ¿Hay algo más en lo que pueda ayudarte?",
    suggested_actions := ["Ver menú", "Ordenar otra cosa"], order := none }

/-- ChatbotService._handle_order_cancellation: replace the whole
conversation state with a fresh ConversationState(). -/
def handle_order_cancellation (_s : ConversationState) : PyRes Response :=
  .ok cancellationResponse {}

/-- ChatbotService._handle_purchase_intent. -/
def handle_purchase_intent (c : Collaborators) (intent : String)
    (e? : Option ExtractedEntities) (s : ConversationState) : PyRes Response :=
  if intent = "ordenar_bebida" then
    liftOrderHandler (handle_order_intent c.searchItem e?) s
  else
    liftOrderHandler (handle_food_order_intent c.searchFoodItem e?) s

/-- ChatbotService.handle_intent.  Every handler in the dispatch dict is
invoked as handler(intent, entities); _handle_price_intent and the
default _handle_unknown_intent accept only a single positional argument,
so those two dispatches raise TypeError before any handler code runs. -/
def handle_intent (c : Collaborators) (intent : String)
    (e? : Option ExtractedEntities) (s : ConversationState) : PyRes Response :=
  if intent = "ordenar_bebida" then handle_purchase_intent c intent e? s
  else if intent = "ordenar_alimento" then handle_purchase_intent c intent e? s
  else if intent = "preguntar_precio" then .exn s
  else if intent = "consultar_menu" then liftOrderHandler (handle_menu_intent c.getMenu) s
  else if intent = "confirmar_orden" then handle_order_confirmation s
  else if intent = "cancelar_orden" then handle_order_cancellation s
  else .exn s

/-- The affirmative tokens of _is_confirmation. -/
def confirmation_words : List String :=
  ["si", "sí", "confirmar", "confirmo", "ok", "dale", "listo"]

/-- ChatbotService._is_confirmation: case-insensitive substring match. -/
def is_confirmation (text : String) : Bool :=
  confirmation_words.any (fun w => strContainsSub (pyLower text) w)

/-- The payment_methods dict of _handle_payment. -/
def payment_methods : List (String × String) :=
  [("1", "Efectivo"), ("2", "Transferencia"), ("3", "Tarjeta Crédito/Débito"),
   ("4", "Aplicación de pago"), ("efectivo", "Efectivo"),
   ("transferencia", "Transferencia"), ("tarjeta", "Tarjeta Crédito/Débito"),
   ("aplicacion", "Aplicación de pago")]

/-- The success text of _handle_payment. -/
def paymentSuccessText (m : String) : String :=
  "¡Pago exitoso con " ++ m ++ "! 🎉\n\n" ++
    "¡Gracias por comprar a través de nuestro chatBot!\n" ++
    "Tu pedido estará listo en breve.\n\n" ++
    "¿Hay algo más en lo que pueda ayudarte?"

/-- The re-prompt text of _handle_payment. -/
def paymentRepromptText : String :=
  "Por favor, selecciona un método de pago válido:\n" ++ "1. Efectivo\n" ++
    "2. Transferencia\n" ++ "3. Tarjeta Crédito/Débito\n" ++ "4. Aplicación de pago"

/-- ChatbotService._handle_payment: lower-case and strip the input, look
it up in payment_methods; a hit resets the whole conversation state, a
miss re-prompts leaving the state untouched. -/
def handle_payment (text : String) (s : ConversationState) : PyRes Response :=
  let input_text := pyStrip (pyLower text)
  match alookup payment_methods input_text with
  | some selected =>
    .ok { text := paymentSuccessText selected,
          suggested_actions := ["Ver menú", "Hacer nuevo pedido"], order := none } {}
  | none =>
    .ok { text := paymentRepromptText, suggested_actions := [],
          order := s.current_order } s

/-- The except-branch Response of _handle_intent_confirmation. -/
def intentConfirmErrorResponse : Response :=
  { text := "Lo siento, ocurrió un error al procesar tu confirmación. ¿Podrías intentarlo de nuevo?",
    suggested_actions := ["Ver menú", "Empezar de nuevo"], order := none }

/-- ChatbotService._handle_intent_confirmation: clear the pending flag,
and on an affirmative text set current_intent to the stored
predicted_intent and dispatch it through handle_intent, its raises
caught by the enclosing try/except; with no stored intent the dispatch
raises TypeError (the default unknown handler is called with two
arguments) and is likewise caught. -/
def handle_intent_confirmation (c : Collaborators) (text : String)
    (s : ConversationState) : PyRes Response :=
  let s1 := { s with pending_intent_confirmation := false }
  if is_confirmation text then
    let s2 := { s1 with current_intent := s1.predicted_intent }
    match s1.predicted_intent with
    | some intent =>
      match handle_intent c intent s1.last_entities s2 with
      | .ok r s' => .ok r s'
      | .exn s' => .ok intentConfirmErrorResponse s'
    | none => .ok intentConfirmErrorResponse s2
  else
    .ok { text := "Entiendo. ¿Podrías reformular tu solicitud?",
          suggested_actions := ["Ver menú", "Ver opciones disponibles"],
          order := none } s1

/-- The text of the outer except clause of process_message. -/
def genericErrorText : String :=
  "Lo siento, tuve un problema procesando tu mensaje. ¿Podrías reformularlo?"

/-- The body of ChatbotService.process_message before its outer
try/except: payment routing, the two collaborator calls, the
direct-intent dispatch and the mode-based dispatch. -/
def process_message_body (c : Collaborators) (text : String)
    (s : ConversationState) : PyRes Response :=
  if s.pending_payment then handle_payment text s
  else
    match c.nlp with
    | .error _ => .exn s
    | .ok entities =>
      match c.classify with
      | .error _ => .exn s
      | .ok (intent, _confidence) =>
        if intent = "consultar_menu" ∨ intent = "confirmar_orden" then
          handle_intent c intent (some entities) s
        else
          let s1 := { s with last_entities := some entities,
                             last_input := some text,
                             predicted_intent := some intent }
          if intent = "ordenar_bebida" ∨ intent = "ordenar_alimento" then
            handle_purchase_intent c intent (some entities)
              { s1 with mode := .PURCHASE }
          else if intent = "consultar_menu" then
            liftOrderHandler (handle_menu_intent c.getMenu) { s1 with mode := .QUERY }
          else if intent = "preguntar_precio" then
            liftOrderHandler (handle_price_query c.searchItem text entities)
              { s1 with mode := .QUERY }
          else
            liftOrderHandler handle_unknown_intent s1

/-- ChatbotService.process_message: the body wrapped in the outer
try/except, whose handler builds the generic-error Response through
_create_response_with_order (which itself can raise, in which case the
exception propagates to the caller). -/
def process_message (c : Collaborators) (text : String)
    (s : ConversationState) : PyRes Response :=
  match process_message_body c text s with
  | .ok r s' => .ok r s'
  | .exn s' =>
    match create_response_with_order genericErrorText
        ["Ver menú", "Empezar de nuevo"] s'.current_order with
    | .error _ => .exn s'
    | .ok r => .ok r s'

/-- Every item of an order has only well-formed customization tokens. -/
def orderWF (o : Order) : Bool :=
  o.items.all itemOK

/-- Well-formedness of an optional current order. -/
def ooWF : Option Order → Bool
  | none => true
  | some o => orderWF o

/-- Well-formedness of a conversation state: its order (when present)
holds only items with well-formed customization tokens. -/
def stateWF (s : ConversationState) : Bool :=
  ooWF s.current_order

/-- A collaborator bundle whose every call raises; used by witnesses
whose code paths never consult the collaborators. -/
def dummyCollab : Collaborators :=
  { nlp := .error (), classify := .error (), searchItem := fun _ => .error (),
    searchFoodItem := fun _ => .error (), getMenu := .error () }

/-- A conversation state with a pending payment. -/
def payState : ConversationState := { pending_payment := true }

/-- Collaborators for a confirmar_orden turn. -/
def confirmCollab : Collaborators :=
  { nlp := .ok {}, classify := .ok ("confirmar_orden", 9/10),
    searchItem := fun _ => .ok none, searchFoodItem := fun _ => .ok none,
    getMenu := .error () }

/-- A state holding an order with one plain latte. -/
def oneItemState : ConversationState :=
  { current_order := some (emptyOrder.add_item plainLatteItem) }

/-- A state holding an existing Order object with zero items. -/
def emptyOrderState : ConversationState :=
  { current_order := some emptyOrder }

/-- The OrderItem _handle_order_intent constructs for a resolved
beverage with a chosen size. -/
def beverageItem (mi : MenuItem) (sz : String) (e : ExtractedEntities) : OrderItem :=
  { menu_item := mi, size := sz, customizations := e.personalizaciones, quantity := 1 }

/-- The entities extracted for a grande latte request. -/
def latteEntities : ExtractedEntities :=
  { bebida := some "latte", tamano := some "grande", personalizaciones := [] }

/-- The entities extracted for a latte request without a size. -/
def latteNoSizeEntities : ExtractedEntities :=
  { bebida := some "latte", tamano := none, personalizaciones := [] }

/-- Collaborators for an ordenar_bebida turn resolving to the latte. -/
def bebidaCollab : Collaborators :=
  { nlp := .ok latteEntities, classify := .ok ("ordenar_bebida", 4/5),
    searchItem := fun q => if q = "latte" then .ok (some latte) else .ok none,
    searchFoodItem := fun _ => .ok none, getMenu := .error () }

/-- Collaborators for an ordenar_alimento turn. -/
def alimentoCollab : Collaborators :=
  { nlp := .ok {}, classify := .ok ("ordenar_alimento", 4/5),
    searchItem := fun _ => .ok none, searchFoodItem := fun _ => .ok none,
    getMenu := .error () }

/-- The clarification text of _handle_unknown_intent. -/
def unknownBaseText : String :=
  "No estoy seguro de lo que quieres hacer. ¿Podrías ser más específico?"

/-- The text _create_response_with_order produces for the unknown-intent
clarification given the current order summary. -/
def unknownText (su : String) : String :=
  if su = "" then unknownBaseText else unknownBaseText ++ "\n" ++ su

/-- Collaborators for a cancelar_orden turn. -/
def cancelCollab : Collaborators :=
  { nlp := .ok {}, classify := .ok ("cancelar_orden", 4/5),
    searchItem := fun _ => .ok none, searchFoodItem := fun _ => .ok none,
    getMenu := .error () }

/-- The treatment process_message gives a direct intent: dispatch
through handle_intent with raises caught by the outer except clause,
which builds the generic-error Response (service.py lines 90-92 and
112-117). -/
def direct_dispatch (c : Collaborators) (i : String)
    (e? : Option ExtractedEntities) (s : ConversationState) : PyRes Response :=
  match handle_intent c i e? s with
  | .ok r s' => .ok r s'
  | .exn s' =>
    match create_response_with_order genericErrorText
        ["Ver menú", "Empezar de nuevo"] s'.current_order with
    | .error _ => .exn s'
    | .ok r => .ok r s'

/-- Equality of conversation states on every field except current_intent
and pending_intent_confirmation (the two fields the confirmation path
additionally writes). -/
def agreesExceptCI (a b : ConversationState) : Prop :=
  a.predicted_intent = b.predicted_intent ∧
  a.current_order = b.current_order ∧
  a.pending_confirmation = b.pending_confirmation ∧
  a.last_entities = b.last_entities ∧
  a.last_input = b.last_input ∧
  a.mode = b.mode ∧
  a.context = b.context ∧
  a.pending_payment = b.pending_payment

/-- A state in which cancelar_orden awaits confirmation. -/
def cancelPendingState : ConversationState :=
  { predicted_intent := some "cancelar_orden", pending_intent_confirmation := true }

/-- A state in which preguntar_precio awaits confirmation. -/
def precioState : ConversationState :=
  { predicted_intent := some "preguntar_precio", last_entities := some {},
    pending_intent_confirmation := true }

theorem alookup_map_replace_self (d : List (String × ℚ)) (k : String) (v : ℚ)
    (h : (alookup d k).isSome) :
    alookup (d.map (fun p => if p.1 = k then (k, v) else p)) k = some v := by
  induction d with
  | nil => simp [alookup] at h
  | cons p t ih =>
    rw [List.map_cons]
    by_cases hp : p.1 = k
    · rw [if_pos hp]
      simp [alookup]
    · rw [if_neg hp]
      have hk : ¬ k = p.1 := fun hh => hp hh.symm
      simp only [alookup, if_neg hk] at h ⊢
      exact ih h

theorem alookup_append_self (d : List (String × ℚ)) (k : String) (v : ℚ)
    (h : alookup d k = none) :
    alookup (d ++ [(k, v)]) k = some v := by
  induction d with
  | nil => simp [alookup]
  | cons p t ih =>
    by_cases hk : k = p.1
    · simp [alookup, hk] at h
    · simp only [alookup, if_neg hk] at h
      simp only [List.cons_append, alookup, if_neg hk]
      exact ih h

theorem alookup_map_replace_ne (d : List (String × ℚ)) (k : String) (v : ℚ)
    (t : String) (h : t ≠ k) :
    alookup (d.map (fun p => if p.1 = k then (k, v) else p)) t = alookup d t := by
  induction d with
  | nil => simp [alookup]
  | cons p tl ih =>
    rw [List.map_cons]
    by_cases hp : p.1 = k
    · rw [if_pos hp]
      have ht : ¬ t = p.1 := by rw [hp]; exact h
      simp only [alookup, if_neg ht]
      have ht2 : ¬ t = ((k, v) : String × ℚ).1 := h
      rw [if_neg ht2]
      exact ih
    · rw [if_neg hp]
      simp only [alookup]
      by_cases htp : t = p.1
      · rw [if_pos htp, if_pos htp]
      · rw [if_neg htp, if_neg htp]
        exact ih

theorem alookup_append_ne (d : List (String × ℚ)) (k : String) (v : ℚ)
    (t : String) (h : t ≠ k) :
    alookup (d ++ [(k, v)]) t = alookup d t := by
  induction d with
  | nil => simp [alookup, h]
  | cons p tl ih =>
    simp only [List.cons_append, alookup]
    by_cases htp : t = p.1
    · rw [if_pos htp, if_pos htp]
    · rw [if_neg htp, if_neg htp]
      exact ih

theorem dict_insert_lookup_self (d : List (String × ℚ)) (k : String) (v : ℚ) :
    alookup (dict_insert d k v) k = some v := by
  unfold dict_insert
  split
  · exact alookup_map_replace_self d k v (by assumption)
  · exact alookup_append_self d k v (by rename_i h; cases hh : alookup d k with
      | none => rfl
      | some w => rw [hh] at h; simp at h)

theorem dict_insert_lookup_ne (d : List (String × ℚ)) (k : String) (v : ℚ)
    (t : String) (h : t ≠ k) : alookup (dict_insert d k v) t = alookup d t := by
  unfold dict_insert
  split
  · exact alookup_map_replace_ne d k v t h
  · exact alookup_append_ne d k v t h

/-- Once a token's entry is present with its canonical value, the rest of
the customization loop preserves it (an overwrite writes the same value). -/
theorem accumulate_preserves (q : ℤ) (ts : List String)
    (acc d : List (String × ℚ)) (t : String) (v : ℚ)
    (hv : matched_surcharge t = some v)
    (hl : alookup acc t = some (v * (q : ℚ)))
    (h : accumulate_customizations q ts acc = .ok d) :
    alookup d t = some (v * (q : ℚ)) := by
  induction ts generalizing acc with
  | nil =>
    simp only [accumulate_customizations] at h
    cases h
    exact hl
  | cons u us ih =>
    simp only [accumulate_customizations] at h
    cases hsp : splitTwo u with
    | none => simp only [hsp] at h; simp at h
    | some co =>
      obtain ⟨a, b⟩ := co
      simp only [hsp] at h
      cases hm : surcharge_lookup a b with
      | none =>
        simp only [hm] at h
        exact ih acc hl h
      | some p =>
        simp only [hm] at h
        by_cases hut : u = t
        · have hmu : matched_surcharge u = some p := by
            simp [matched_surcharge, hsp, hm]
          rw [hut, hv] at hmu
          cases hmu
          exact ih _ (by rw [hut]; exact dict_insert_lookup_self acc t (v * (q : ℚ))) h
        · exact ih _
            (by rw [dict_insert_lookup_ne acc u (p * (q : ℚ)) t (fun hh => hut hh.symm)]
                exact hl) h

/-- Every token of the processed list whose category and option are in
the surcharge table ends up in the result dict keyed by the literal
token, with value surcharge × quantity. -/
theorem accumulate_mem_lookup (q : ℤ) (ts : List String)
    (acc d : List (String × ℚ))
    (h : accumulate_customizations q ts acc = .ok d) :
    ∀ t ∈ ts, ∀ v, matched_surcharge t = some v →
      alookup d t = some (v * (q : ℚ)) := by
  induction ts generalizing acc with
  | nil => intro t ht; exact absurd ht (by simp)
  | cons u us ih =>
    intro t ht v hv
    simp only [accumulate_customizations] at h
    rcases List.mem_cons.mp ht with rfl | htus
    · cases hsp : splitTwo t with
      | none => simp [matched_surcharge, hsp] at hv
      | some co =>
        obtain ⟨a, b⟩ := co
        have hm : surcharge_lookup a b = some v := by
          simpa [matched_surcharge, hsp] using hv
        simp only [hsp, hm] at h
        exact accumulate_preserves q us _ d t v hv
          (dict_insert_lookup_self acc t (v * (q : ℚ))) h
    · cases hsp : splitTwo u with
      | none => simp only [hsp] at h; simp at h
      | some co =>
        obtain ⟨a, b⟩ := co
        simp only [hsp] at h
        cases hm : surcharge_lookup a b with
        | none =>
          simp only [hm] at h
          exact ih acc h t htus v hv
        | some p =>
          simp only [hm] at h
          exact ih _ h t htus v hv

/-- The customization loop raises as soon as it reaches a token whose
split does not have exactly two parts. -/
theorem accumulate_error_of_bad (q : ℤ) (ts : List String)
    (hbad : ∃ t ∈ ts, tokenOK t = false) (acc : List (String × ℚ)) :
    accumulate_customizations q ts acc = .error () := by
  induction ts generalizing acc with
  | nil => rcases hbad with ⟨t, ht, _⟩; exact absurd ht (by simp)
  | cons u us ih =>
    rcases hbad with ⟨t, ht, htb⟩
    simp only [accumulate_customizations]
    rcases List.mem_cons.mp ht with rfl | htus
    · cases hsp : splitTwo t with
      | none => simp
      | some co =>
        exfalso
        simp [tokenOK, hsp] at htb
    · cases hsp : splitTwo u with
      | none => simp
      | some co =>
        obtain ⟨a, b⟩ := co
        simp only []
        cases hm : surcharge_lookup a b with
        | none => exact ih ⟨t, htus, htb⟩ acc
        | some p => exact ih ⟨t, htus, htb⟩ _

/-- With every token well formed the customization loop succeeds. -/
theorem accumulate_ok_of_all_ok (q : ℤ) (ts : List String)
    (hok : ∀ t ∈ ts, tokenOK t = true) (acc : List (String × ℚ)) :
    ∃ d, accumulate_customizations q ts acc = .ok d := by
  induction ts generalizing acc with
  | nil => exact ⟨acc, rfl⟩
  | cons u us ih =>
    have hu : tokenOK u = true := hok u (by simp)
    simp only [accumulate_customizations]
    cases hsp : splitTwo u with
    | none => simp [tokenOK, hsp] at hu
    | some co =>
      obtain ⟨a, b⟩ := co
      simp only []
      cases hm : surcharge_lookup a b with
      | none => exact ih (fun t ht => hok t (by simp [ht])) acc
      | some p => exact ih (fun t ht => hok t (by simp [ht])) _

/-- When no token of the list earns a surcharge and all are well formed
the loop returns its accumulator unchanged. -/
theorem accumulate_no_match (q : ℤ) (ts : List String)
    (hok : ∀ t ∈ ts, tokenOK t = true)
    (hnm : ∀ t ∈ ts, matched_surcharge t = none) (acc : List (String × ℚ)) :
    accumulate_customizations q ts acc = .ok acc := by
  induction ts generalizing acc with
  | nil => rfl
  | cons u us ih =>
    have hu : tokenOK u = true := hok u (by simp)
    simp only [accumulate_customizations]
    cases hsp : splitTwo u with
    | none => simp [tokenOK, hsp] at hu
    | some co =>
      obtain ⟨a, b⟩ := co
      have hm : surcharge_lookup a b = none := by
        have := hnm u (by simp)
        simpa [matched_surcharge, hsp] using this
      simp only [hm]
      exact ih (fun t ht => hok t (by simp [ht])) (fun t ht => hnm t (by simp [ht])) acc

/-- calculate_order_total agrees with the stored-total formula whenever
every item prices with an empty surcharge dict. -/
theorem calc_total_of_plain (l : List OrderItem)
    (h : ∀ i ∈ l, calculate_item_price i =
      .ok ⟨i.calculate_price, [], i.calculate_price⟩) :
    calculate_order_total l = .ok (orderTotalValue l) := by
  induction l with
  | nil => simp [calculate_order_total, orderTotalValue]
  | cons i is ih =>
    have hi := h i (by simp)
    simp only [calculate_order_total, hi, ih (fun j hj => h j (by simp [hj]))]
    simp [orderTotalValue]

/-- Claim C1, corrected.  After every add_item/remove_item the stored
order.total equals the sum over the items of OrderItem.calculate_price,
i.e. base price × quantity only; it coincides with the sum of
PriceCalculator.calculate_item_price(item).total exactly when every item
prices with an empty surcharge dict — customization surcharges are NOT
reflected in the stored total. -/
theorem claims_C1 (o : Order) (op : OrderOp) (o' : Order)
    (h : apply_order_op o op = .ok o') :
    o'.total = orderTotalValue o'.items ∧
    ((∀ i ∈ o'.items, calculate_item_price i =
        .ok ⟨i.calculate_price, [], i.calculate_price⟩) →
      calculate_order_total o'.items = .ok o'.total) := by
  have h1 : o'.total = orderTotalValue o'.items := by
    cases op with
    | add i =>
      simp only [apply_order_op, Order.add_item] at h
      cases h
      rfl
    | remove i =>
      simp only [apply_order_op, Order.remove_item] at h
      split at h
      · cases h
        rfl
      · simp at h
  exact ⟨h1, fun hp => by rw [h1]; exact calc_total_of_plain o'.items hp⟩

/-- Witness for claims_C1 at a concrete add operation. -/
theorem claims_C1_witness :
    apply_order_op emptyOrder (OrderOp.add plainLatteItem) =
      .ok (emptyOrder.add_item plainLatteItem) ∧
    ((emptyOrder.add_item plainLatteItem).total =
      orderTotalValue (emptyOrder.add_item plainLatteItem).items ∧
    ((∀ i ∈ (emptyOrder.add_item plainLatteItem).items, calculate_item_price i =
        .ok ⟨i.calculate_price, [], i.calculate_price⟩) →
      calculate_order_total (emptyOrder.add_item plainLatteItem).items =
        .ok (emptyOrder.add_item plainLatteItem).total)) :=
  ⟨rfl, claims_C1 emptyOrder (OrderOp.add plainLatteItem) _ rfl⟩

/-- Counterexample to claim C1 as stated: adding a latte carrying the
surcharged customization leche:almendra stores total 3 while the sum of
calculate_item_price totals is 3.5. -/
theorem claims_C1_counterexample :
    (emptyOrder.add_item almondLatteItem).total = 3 ∧
    calculate_order_total (emptyOrder.add_item almondLatteItem).items = .ok (7/2) ∧
    ¬ ((3 : ℚ) = 7/2) := by
  have hsp : splitTwo "leche:almendra" = some ("leche", "almendra") := by decide
  have hsur : surcharge_lookup "leche" "almendra" = some (1/2) := by
    simp [surcharge_lookup, customization_price_table, alookup]
  have hacc : accumulate_customizations almondLatteItem.quantity
      almondLatteItem.customizations [] = .ok [("leche:almendra", (1 : ℚ)/2)] := by
    simp [almondLatteItem, accumulate_customizations, hsp, hsur, dict_insert, alookup]
  have hcalc : calculate_item_price almondLatteItem =
      .ok ⟨3, [("leche:almendra", (1 : ℚ)/2)], 7/2⟩ := by
    simp only [calculate_item_price, hacc]
    have hb : almondLatteItem.menu_item.get_base_price almondLatteItem.size = 3 := by
      simp [almondLatteItem, latte, MenuItem.get_base_price, alookup]
    rw [hb]
    have hq : ((almondLatteItem.quantity : ℤ) : ℚ) = 1 := by simp [almondLatteItem]
    rw [hq]
    norm_num
  refine ⟨?_, ?_, by norm_num⟩
  · have : (emptyOrder.add_item almondLatteItem).total =
        orderTotalValue [almondLatteItem] := rfl
    rw [this]
    simp [orderTotalValue, OrderItem.calculate_price, almondLatteItem, latte,
      MenuItem.get_base_price, alookup]
  · have : (emptyOrder.add_item almondLatteItem).items = [almondLatteItem] := rfl
    rw [this]
    simp only [calculate_order_total, hcalc]
    norm_num

/-- Claim C6, corrected.  For an item whose every customization token
splits on ":" into exactly two parts, calculate_item_price succeeds and
returns base price × quantity (0 when the size is absent from the price
map), records surcharge × quantity under the literal token for every
token matched in the table, and totals base plus the recorded surcharges.
A token with more than one ":" makes the computation raise ValueError
instead of being treated as split-on-first-colon. -/
theorem claims_C6 (item : OrderItem) (h : itemOK item = true) :
    ∃ bd, calculate_item_price item = .ok bd ∧
      bd.base_price = (alookup item.menu_item.prices item.size).getD 0 * (item.quantity : ℚ) ∧
      (alookup item.menu_item.prices item.size = none → bd.base_price = 0) ∧
      bd.total = bd.base_price + (bd.customization_prices.map Prod.snd).sum ∧
      (∀ t ∈ item.customizations, ∀ v, matched_surcharge t = some v →
        alookup bd.customization_prices t = some (v * (item.quantity : ℚ))) := by
  have hall : ∀ t ∈ item.customizations, tokenOK t = true := by
    intro t ht
    exact List.all_eq_true.mp h t ht
  obtain ⟨d, hd⟩ := accumulate_ok_of_all_ok item.quantity item.customizations hall []
  refine ⟨{ base_price := item.menu_item.get_base_price item.size * (item.quantity : ℚ),
            customization_prices := d,
            total := item.menu_item.get_base_price item.size * (item.quantity : ℚ) +
              (d.map Prod.snd).sum }, ?_, rfl, ?_, rfl, ?_⟩
  · simp only [calculate_item_price, hd]
  · intro h0
    simp [MenuItem.get_base_price, h0]
  · intro t ht v hv
    exact accumulate_mem_lookup item.quantity item.customizations [] d hd t ht v hv

/-- Witness for claims_C6 at the almond-latte item. -/
theorem claims_C6_witness :
    itemOK almondLatteItem = true ∧
    (∃ bd, calculate_item_price almondLatteItem = .ok bd ∧
      bd.base_price =
        (alookup almondLatteItem.menu_item.prices almondLatteItem.size).getD 0 *
          (almondLatteItem.quantity : ℚ) ∧
      (alookup almondLatteItem.menu_item.prices almondLatteItem.size = none →
        bd.base_price = 0) ∧
      bd.total = bd.base_price + (bd.customization_prices.map Prod.snd).sum ∧
      (∀ t ∈ almondLatteItem.customizations, ∀ v, matched_surcharge t = some v →
        alookup bd.customization_prices t =
          some (v * (almondLatteItem.quantity : ℚ)))) :=
  ⟨by decide, claims_C6 almondLatteItem (by decide)⟩

/-- Counterexample to claim C6 as stated: on the token shots:doble:x the
claimed split-on-first-colon reading would price the item at its base
price, but the code raises ValueError (no PriceBreakdown is returned). -/
theorem claims_C6_counterexample :
    calculate_item_price doubleColonItem = .error () := rfl

/-- Claim C7, corrected.  A customization token without ":" is NOT
silently ignored: calculate_item_price raises ValueError on it.  Tokens
with exactly one ":" whose category or option is absent from the
surcharge table are silently ignored: with all tokens well formed and
none matching the table, the computation succeeds with an empty
surcharge dict and total = base price × quantity. -/
theorem claims_C7 (item : OrderItem) :
    ((∃ t ∈ item.customizations, tokenOK t = false) →
      calculate_item_price item = .error ()) ∧
    ((∀ t ∈ item.customizations, tokenOK t = true) →
     (∀ t ∈ item.customizations, matched_surcharge t = none) →
      calculate_item_price item =
        .ok ⟨item.calculate_price, [], item.calculate_price⟩) := by
  constructor
  · intro hbad
    simp only [calculate_item_price,
      accumulate_error_of_bad item.quantity item.customizations hbad []]
  · intro hok hnm
    simp only [calculate_item_price,
      accumulate_no_match item.quantity item.customizations hok hnm []]
    simp [OrderItem.calculate_price]

/-- Witness for claims_C7: the error half at noColonItem. -/
theorem claims_C7_witness :
    (∃ t ∈ noColonItem.customizations, tokenOK t = false) ∧
    calculate_item_price noColonItem = .error () :=
  ⟨⟨"leche", by decide, by decide⟩,
   (claims_C7 noColonItem).1 ⟨"leche", by decide, by decide⟩⟩

/-- Counterexample to claim C7 as stated: the colon-free token leche is
not silently ignored — calculate_item_price raises ValueError, so no
breakdown at all is produced for the item. -/
theorem claims_C7_counterexample :
    ¬ ∃ bd, calculate_item_price noColonItem = .ok bd := by
  intro ⟨bd, hbd⟩
  rw [show calculate_item_price noColonItem = .error () from rfl] at hbd
  simp at hbd

theorem calculate_item_price_ok (i : OrderItem) (h : itemOK i = true) :
    ∃ bd, calculate_item_price i = .ok bd := by
  obtain ⟨d, hd⟩ := accumulate_ok_of_all_ok i.quantity i.customizations
    (fun t ht => List.all_eq_true.mp h t ht) []
  exact ⟨_, by
    simp only [calculate_item_price, hd]
    rfl⟩

theorem itemOK_of_calc_ok (i : OrderItem) (bd : PriceBreakdown)
    (h : calculate_item_price i = .ok bd) : itemOK i = true := by
  by_contra hc
  have hbad : ∃ t ∈ i.customizations, tokenOK t = false := by
    simp only [itemOK, List.all_eq_true, not_forall] at hc
    obtain ⟨t, ht, hnt⟩ := hc
    exact ⟨t, ht, by simpa using hnt⟩
  have herr := accumulate_error_of_bad i.quantity i.customizations hbad []
  simp only [calculate_item_price, herr] at h
  simp at h

theorem calculate_order_total_ok (l : List OrderItem)
    (h : ∀ i ∈ l, itemOK i = true) : ∃ q, calculate_order_total l = .ok q := by
  induction l with
  | nil => exact ⟨0, rfl⟩
  | cons i is ih =>
    obtain ⟨bd, hbd⟩ := calculate_item_price_ok i (h i (by simp))
    obtain ⟨r, hr⟩ := ih (fun j hj => h j (by simp [hj]))
    exact ⟨bd.total + r, by simp only [calculate_order_total, hbd, hr]⟩

theorem summaryLinesAux_ok (l : List OrderItem)
    (h : ∀ i ∈ l, itemOK i = true) :
    ∃ ls cal, summaryLinesAux l = .ok (ls, cal) := by
  induction l with
  | nil => exact ⟨[], 0, rfl⟩
  | cons i is ih =>
    obtain ⟨bd, hbd⟩ := calculate_item_price_ok i (h i (by simp))
    obtain ⟨ls, cal, hr⟩ := ih (fun j hj => h j (by simp [hj]))
    exact ⟨_, _, by
      simp only [summaryLinesAux, hbd, hr]
      rfl⟩

theorem format_order_summary_ok (o : Order) (h : orderWF o = true) :
    ∃ t, format_order_summary o = .ok t := by
  have hall : ∀ i ∈ o.items, itemOK i = true :=
    fun i hi => List.all_eq_true.mp h i hi
  obtain ⟨ls, cal, hp⟩ := summaryLinesAux_ok o.items hall
  obtain ⟨q, hq⟩ := calculate_order_total_ok o.items hall
  exact ⟨_, by
    simp only [format_order_summary, hp, hq]
    rfl⟩

theorem format_current_order_summary_ok (oo : Option Order)
    (h : ooWF oo = true) :
    ∃ t, format_current_order_summary oo = .ok t := by
  cases oo with
  | none => exact ⟨"", rfl⟩
  | some o =>
    cases he : o.items.isEmpty with
    | true => exact ⟨"", by simp [format_current_order_summary, he]⟩
    | false =>
      obtain ⟨q, hq⟩ := calculate_order_total_ok o.items
        (fun i hi => List.all_eq_true.mp h i hi)
      exact ⟨_, by simp only [format_current_order_summary, he, hq]; rfl⟩

theorem create_response_with_order_ok (text : String) (actions : List String)
    (oo : Option Order) (h : ooWF oo = true) :
    ∃ r, create_response_with_order text actions oo = .ok r ∧
      r.suggested_actions = actions ∧ r.order = oo := by
  obtain ⟨t, ht⟩ := format_current_order_summary_ok oo h
  refine ⟨{ text := if t = "" then text else text ++ "\n" ++ t,
            suggested_actions := actions, order := oo }, ?_, rfl, rfl⟩
  simp only [create_response_with_order, ht]

theorem orderWF_add (o : Order) (i : OrderItem) (ho : orderWF o = true)
    (hi : itemOK i = true) : orderWF (o.add_item i) = true := by
  simp only [orderWF, Order.add_item, List.all_append] at ho ⊢
  simp [ho, hi]

theorem ooWF_getD (oo : Option Order) (h : ooWF oo = true) :
    orderWF (oo.getD emptyOrder) = true := by
  cases oo with
  | none => rfl
  | some o => exact h

theorem handle_order_intent_ok (si : String → Except Unit (Option MenuItem))
    (e? : Option ExtractedEntities) (oo : Option Order) (h : ooWF oo = true) :
    ∃ r oo', handle_order_intent si e? oo = .ok r oo' ∧ ooWF oo' = true := by
  cases e? with
  | none => exact ⟨_, _, rfl, h⟩
  | some e =>
    simp only [handle_order_intent]
    cases hb : optStrTruthy e.bebida with
    | false => exact ⟨_, _, rfl, h⟩
    | true =>
      simp only [if_true]
      cases hsi : si (e.bebida.getD "") with
      | error err => exact ⟨_, _, rfl, h⟩
      | ok found =>
        cases found with
        | none => exact ⟨_, _, rfl, h⟩
        | some item =>
          cases ht : optStrTruthy e.tamano with
          | false => exact ⟨_, _, rfl, h⟩
          | true =>
            simp only [if_true]
            cases hc : calculate_item_price
                { menu_item := item, size := e.tamano.getD "",
                  customizations := e.personalizaciones, quantity := 1 } with
            | error err => exact ⟨_, _, rfl, h⟩
            | ok bd =>
              refine ⟨_, _, rfl, ?_⟩
              exact orderWF_add _ _ (ooWF_getD oo h) (itemOK_of_calc_ok _ bd hc)

theorem handle_food_order_intent_ok
    (sfi : String → Except Unit (Option MenuItem))
    (e? : Option ExtractedEntities) (oo : Option Order) (h : ooWF oo = true) :
    ∃ r, handle_food_order_intent sfi e? oo =
      .ok r (some (oo.getD emptyOrder)) ∧ ooWF (some (oo.getD emptyOrder)) = true := by
  have h1 : ooWF (some (oo.getD emptyOrder)) = true := ooWF_getD oo h
  cases e? with
  | none => exact ⟨_, rfl, h1⟩
  | some e => exact ⟨_, rfl, h1⟩

theorem handle_menu_intent_cases (g : Except Unit MenuData) (oo : Option Order)
    (h : ooWF oo = true) :
    (∃ r, handle_menu_intent g oo = .ok r oo) ∨
      handle_menu_intent g oo = .exn oo := by
  cases g with
  | error err => exact Or.inr rfl
  | ok m =>
    obtain ⟨r, hr, -, -⟩ := create_response_with_order_ok
      ("Este es nuestro menú:\n" ++ format_menu_summary m ++ "\n\n¿Qué te gustaría hacer?")
      ["Ordenar algo", "Consultar precios", "Ver bebidas", "Ver alimentos"] oo h
    exact Or.inl ⟨r, by simp only [handle_menu_intent, hr]⟩

theorem handle_unknown_intent_ok (oo : Option Order) (h : ooWF oo = true) :
    ∃ r, handle_unknown_intent oo = .ok r oo := by
  obtain ⟨r, hr, -, -⟩ := create_response_with_order_ok
    "No estoy seguro de lo que quieres hacer. ¿Podrías ser más específico?"
    ["Ver menú", "Hacer pedido", "Ver precios"] oo h
  exact ⟨r, by simp only [handle_unknown_intent, hr]⟩

theorem handle_price_query_cases (si : String → Except Unit (Option MenuItem))
    (t : String) (e : ExtractedEntities) (oo : Option Order)
    (h : ooWF oo = true) :
    (∃ r, handle_price_query si t e oo = .ok r oo) ∨
      handle_price_query si t e oo = .exn oo := by
  simp only [handle_price_query]
  cases hres : (if optStrTruthy e.bebida then si (e.bebida.getD "") else .ok none) with
  | error err => exact Or.inr rfl
  | ok found =>
    cases found with
    | none => exact Or.inr rfl
    | some product =>
      obtain ⟨r, hr, -, -⟩ := create_response_with_order_ok
        (priceQueryFoundText product ++ "\n¿Te gustaría ordenarlo?")
        ["Ordenar " ++ product.name, "Consultar otro precio", "Ver menú completo"] oo h
      exact Or.inl ⟨r, by simp only [hr]⟩

theorem handle_order_confirmation_ok (s : ConversationState)
    (h : stateWF s = true) :
    ∃ r s', handle_order_confirmation s = .ok r s' ∧ stateWF s' = true ∧
      s'.current_order = s.current_order := by
  cases ho : s.current_order with
  | none =>
    exact ⟨_, s, by
      simp only [handle_order_confirmation, ho]
      rfl, h, ho⟩
  | some o =>
    have hwf : orderWF o = true := by
      simpa [stateWF, ooWF, ho] using h
    have hwf2 : stateWF { s with pending_payment := true } = true := by
      simpa [stateWF, ooWF, ho] using h
    obtain ⟨t, ht⟩ := format_order_summary_ok o hwf
    exact ⟨_, { s with pending_payment := true }, by
      simp only [handle_order_confirmation, ho, ht]
      rfl, hwf2, by simpa using ho⟩

theorem handle_payment_ok (t : String) (s : ConversationState)
    (h : stateWF s = true) :
    ∃ r s', handle_payment t s = .ok r s' ∧ stateWF s' = true := by
  simp only [handle_payment]
  cases hm : alookup payment_methods (pyStrip (pyLower t)) with
  | none => exact ⟨_, _, rfl, h⟩
  | some selected => exact ⟨_, _, rfl, rfl⟩

theorem stateWF_set_order (s : ConversationState) (oo : Option Order) :
    stateWF { s with current_order := oo } = ooWF oo := rfl

theorem handle_intent_menu (c : Collaborators) (e? : Option ExtractedEntities)
    (s : ConversationState) :
    handle_intent c "consultar_menu" e? s =
      liftOrderHandler (handle_menu_intent c.getMenu) s := by
  simp [handle_intent]

theorem handle_intent_confirm (c : Collaborators) (e? : Option ExtractedEntities)
    (s : ConversationState) :
    handle_intent c "confirmar_orden" e? s = handle_order_confirmation s := by
  simp [handle_intent]

theorem handle_intent_cancel (c : Collaborators) (e? : Option ExtractedEntities)
    (s : ConversationState) :
    handle_intent c "cancelar_orden" e? s = handle_order_cancellation s := by
  simp [handle_intent]

theorem handle_intent_bebida (c : Collaborators) (e? : Option ExtractedEntities)
    (s : ConversationState) :
    handle_intent c "ordenar_bebida" e? s =
      liftOrderHandler (handle_order_intent c.searchItem e?) s := by
  simp [handle_intent, handle_purchase_intent]

theorem handle_intent_alimento (c : Collaborators) (e? : Option ExtractedEntities)
    (s : ConversationState) :
    handle_intent c "ordenar_alimento" e? s =
      liftOrderHandler (handle_food_order_intent c.searchFoodItem e?) s := by
  simp [handle_intent, handle_purchase_intent]

theorem handle_intent_precio (c : Collaborators) (e? : Option ExtractedEntities)
    (s : ConversationState) :
    handle_intent c "preguntar_precio" e? s = .exn s := by
  simp [handle_intent]

theorem handle_intent_default (c : Collaborators) (i : String)
    (e? : Option ExtractedEntities) (s : ConversationState)
    (h1 : i ≠ "ordenar_bebida") (h2 : i ≠ "ordenar_alimento")
    (h3 : i ≠ "preguntar_precio") (h4 : i ≠ "consultar_menu")
    (h5 : i ≠ "confirmar_orden") (h6 : i ≠ "cancelar_orden") :
    handle_intent c i e? s = .exn s := by
  simp [handle_intent, h1, h2, h3, h4, h5, h6]

theorem body_payment (c : Collaborators) (t : String) (s : ConversationState)
    (h : s.pending_payment = true) :
    process_message_body c t s = handle_payment t s := by
  simp [process_message_body, h]

theorem body_direct (c : Collaborators) (t : String) (s : ConversationState)
    (e : ExtractedEntities) (i : String) (k : ℚ)
    (hp : s.pending_payment = false) (hn : c.nlp = .ok e)
    (hc : c.classify = .ok (i, k))
    (hd : i = "consultar_menu" ∨ i = "confirmar_orden") :
    process_message_body c t s = handle_intent c i (some e) s := by
  rcases hd with rfl | rfl <;> simp [process_message_body, hp, hn, hc]

theorem body_bebida (c : Collaborators) (t : String) (s : ConversationState)
    (e : ExtractedEntities) (k : ℚ)
    (hp : s.pending_payment = false) (hn : c.nlp = .ok e)
    (hc : c.classify = .ok ("ordenar_bebida", k)) :
    process_message_body c t s =
      liftOrderHandler (handle_order_intent c.searchItem (some e))
        { s with last_entities := some e, last_input := some t,
                 predicted_intent := some "ordenar_bebida",
                 mode := .PURCHASE } := by
  simp [process_message_body, hp, hn, hc, handle_purchase_intent]

theorem body_alimento (c : Collaborators) (t : String) (s : ConversationState)
    (e : ExtractedEntities) (k : ℚ)
    (hp : s.pending_payment = false) (hn : c.nlp = .ok e)
    (hc : c.classify = .ok ("ordenar_alimento", k)) :
    process_message_body c t s =
      liftOrderHandler (handle_food_order_intent c.searchFoodItem (some e))
        { s with last_entities := some e, last_input := some t,
                 predicted_intent := some "ordenar_alimento",
                 mode := .PURCHASE } := by
  simp [process_message_body, hp, hn, hc, handle_purchase_intent]

theorem body_precio (c : Collaborators) (t : String) (s : ConversationState)
    (e : ExtractedEntities) (k : ℚ)
    (hp : s.pending_payment = false) (hn : c.nlp = .ok e)
    (hc : c.classify = .ok ("preguntar_precio", k)) :
    process_message_body c t s =
      liftOrderHandler (handle_price_query c.searchItem t e)
        { s with last_entities := some e, last_input := some t,
                 predicted_intent := some "preguntar_precio",
                 mode := .QUERY } := by
  simp [process_message_body, hp, hn, hc]

theorem body_other (c : Collaborators) (t : String) (s : ConversationState)
    (e : ExtractedEntities) (i : String) (k : ℚ)
    (hp : s.pending_payment = false) (hn : c.nlp = .ok e)
    (hc : c.classify = .ok (i, k))
    (h1 : i ≠ "consultar_menu") (h2 : i ≠ "confirmar_orden")
    (h3 : i ≠ "ordenar_bebida") (h4 : i ≠ "ordenar_alimento")
    (h5 : i ≠ "preguntar_precio") :
    process_message_body c t s =
      liftOrderHandler handle_unknown_intent
        { s with last_entities := some e, last_input := some t,
                 predicted_intent := some i } := by
  simp [process_message_body, hp, hn, hc, h1, h2, h3, h4, h5]

theorem pm_of_body_ok (c : Collaborators) (t : String) (s : ConversationState)
    (r : Response) (s' : ConversationState)
    (h : process_message_body c t s = .ok r s') :
    process_message c t s = .ok r s' := by
  simp [process_message, h]

theorem pm_of_body_exn (c : Collaborators) (t : String) (s : ConversationState)
    (s' : ConversationState) (h : process_message_body c t s = .exn s')
    (hwf : stateWF s' = true) :
    ∃ r, process_message c t s = .ok r s' ∧ r.order = s'.current_order := by
  obtain ⟨r, hr, -, hord⟩ := create_response_with_order_ok genericErrorText
    ["Ver menú", "Empezar de nuevo"] s'.current_order hwf
  exact ⟨r, by simp [process_message, h, hr], hord⟩

theorem stateWF_store (s : ConversationState) (le : Option ExtractedEntities)
    (li : Option String) (pi : Option String) :
    stateWF { s with last_entities := le, last_input := li,
                     predicted_intent := pi } = stateWF s := rfl

theorem stateWF_store_mode (s : ConversationState)
    (le : Option ExtractedEntities) (li : Option String) (pi : Option String)
    (mo : InteractionMode) :
    stateWF { s with last_entities := le, last_input := li,
                     predicted_intent := pi, mode := mo } = stateWF s := rfl

theorem liftOrderHandler_ok (f : Option Order → OrderOut)
    (s : ConversationState) (r : Response) (oo' : Option Order)
    (h : f s.current_order = .ok r oo') :
    liftOrderHandler f s = .ok r { s with current_order := oo' } := by
  simp [liftOrderHandler, h]

theorem liftOrderHandler_exn (f : Option Order → OrderOut)
    (s : ConversationState) (oo' : Option Order)
    (h : f s.current_order = .exn oo') :
    liftOrderHandler f s = .exn { s with current_order := oo' } := by
  simp [liftOrderHandler, h]

/-- Claim C9 (confirmed).  For every input text, every behavior of the
external collaborators — including the extractor or classifier raising —
and every conversation state whose order holds only well-formed
customization tokens (an invariant the conclusion shows is preserved),
process_message returns a Response and never lets an exception
propagate. -/
theorem claims_C9 (c : Collaborators) (t : String) (s : ConversationState)
    (h : stateWF s = true) :
    ∃ r s', process_message c t s = .ok r s' ∧ stateWF s' = true := by
  cases hp : s.pending_payment with
  | true =>
    obtain ⟨r, s', hps, hwf⟩ := handle_payment_ok t s h
    exact ⟨r, s', pm_of_body_ok c t s r s' ((body_payment c t s hp).trans hps), hwf⟩
  | false =>
    cases hn : c.nlp with
    | error u =>
      have hbody : process_message_body c t s = .exn s := by
        simp [process_message_body, hp, hn]
      obtain ⟨r, hr, -⟩ := pm_of_body_exn c t s s hbody h
      exact ⟨r, s, hr, h⟩
    | ok e =>
      cases hc : c.classify with
      | error u =>
        have hbody : process_message_body c t s = .exn s := by
          simp [process_message_body, hp, hn, hc]
        obtain ⟨r, hr, -⟩ := pm_of_body_exn c t s s hbody h
        exact ⟨r, s, hr, h⟩
      | ok ik =>
        obtain ⟨i, k⟩ := ik
        by_cases h1 : i = "consultar_menu"
        · subst h1
          have hbody := (body_direct c t s e _ k hp hn hc (Or.inl rfl)).trans
            (handle_intent_menu c (some e) s)
          rcases handle_menu_intent_cases c.getMenu s.current_order h with ⟨r, hr⟩ | hr
          · exact ⟨r, _, pm_of_body_ok c t s r _
              (hbody.trans (liftOrderHandler_ok _ s r s.current_order hr)), h⟩
          · have hbody2 := hbody.trans (liftOrderHandler_exn _ s s.current_order hr)
            obtain ⟨r, hrr, -⟩ := pm_of_body_exn c t s _ hbody2 h
            exact ⟨r, _, hrr, h⟩
        · by_cases h2 : i = "confirmar_orden"
          · subst h2
            have hbody := (body_direct c t s e _ k hp hn hc (Or.inr rfl)).trans
              (handle_intent_confirm c (some e) s)
            obtain ⟨r, s', hok, hwf, -⟩ := handle_order_confirmation_ok s h
            exact ⟨r, s', pm_of_body_ok c t s r s' (hbody.trans hok), hwf⟩
          · by_cases h3 : i = "ordenar_bebida"
            · subst h3
              have hbody := body_bebida c t s e k hp hn hc
              obtain ⟨r, oo', hr, hwf⟩ :=
                handle_order_intent_ok c.searchItem (some e) s.current_order h
              exact ⟨r, _, pm_of_body_ok c t s r _
                (hbody.trans (liftOrderHandler_ok _ _ r oo' hr)), hwf⟩
            · by_cases h4 : i = "ordenar_alimento"
              · subst h4
                have hbody := body_alimento c t s e k hp hn hc
                obtain ⟨r, hr, hwf⟩ :=
                  handle_food_order_intent_ok c.searchFoodItem (some e) s.current_order h
                exact ⟨r, _, pm_of_body_ok c t s r _
                  (hbody.trans (liftOrderHandler_ok _ _ r _ hr)), hwf⟩
              · by_cases h5 : i = "preguntar_precio"
                · subst h5
                  have hbody := body_precio c t s e k hp hn hc
                  rcases handle_price_query_cases c.searchItem t e s.current_order h
                    with ⟨r, hr⟩ | hr
                  · exact ⟨r, _, pm_of_body_ok c t s r _
                      (hbody.trans (liftOrderHandler_ok _ _ r s.current_order hr)), h⟩
                  · have hbody2 := hbody.trans
                      (liftOrderHandler_exn _ _ s.current_order hr)
                    obtain ⟨r, hrr, -⟩ := pm_of_body_exn c t s _ hbody2 h
                    exact ⟨r, _, hrr, h⟩
                · have hbody := body_other c t s e i k hp hn hc h1 h2 h3 h4 h5
                  obtain ⟨r, hr⟩ := handle_unknown_intent_ok s.current_order h
                  exact ⟨r, _, pm_of_body_ok c t s r _
                    (hbody.trans (liftOrderHandler_ok _ _ r s.current_order hr)), h⟩

/-- Claim C2 (confirmed).  With pendingPayment set, process_message
routes to the payment sub-flow without consulting the extractor or
classifier (the result is the same for every collaborator behavior); an
input whose lowercased, stripped form is a key of payment_methods
(codes 1–4 or a method keyword) resets the state to a fresh
ConversationState and returns the success Response; any other input
returns the four-option re-prompt and leaves the state — including
pendingPayment — untouched. -/
theorem claims_C2 (c c' : Collaborators) (t : String) (s : ConversationState)
    (h : s.pending_payment = true) :
    process_message c t s = handle_payment t s ∧
    process_message c t s = process_message c' t s ∧
    (∀ m, alookup payment_methods (pyStrip (pyLower t)) = some m →
      process_message c t s = .ok
        { text := paymentSuccessText m,
          suggested_actions := ["Ver menú", "Hacer nuevo pedido"],
          order := none } ({} : ConversationState)) ∧
    (alookup payment_methods (pyStrip (pyLower t)) = none →
      process_message c t s = .ok
        { text := paymentRepromptText, suggested_actions := [],
          order := s.current_order } s ∧
      s.pending_payment = true) := by
  have hpm : ∀ (cx : Collaborators), process_message cx t s = handle_payment t s := by
    intro cx
    have hb := body_payment cx t s h
    cases hm : alookup payment_methods (pyStrip (pyLower t)) with
    | some m => simp only [process_message, hb, handle_payment, hm]
    | none => simp only [process_message, hb, handle_payment, hm]
  refine ⟨hpm c, (hpm c).trans (hpm c').symm, ?_, ?_⟩
  · intro m hm
    rw [hpm c]
    simp only [handle_payment, hm]
  · intro hm
    rw [hpm c]
    exact ⟨by simp only [handle_payment, hm], h⟩

/-- Witness for claims_C2 at the input " 2 " on a pending-payment
state. -/
theorem claims_C2_witness :
    payState.pending_payment = true ∧
    (process_message dummyCollab " 2 " payState = handle_payment " 2 " payState ∧
     process_message dummyCollab " 2 " payState =
       process_message dummyCollab " 2 " payState ∧
     (∀ m, alookup payment_methods (pyStrip (pyLower " 2 ")) = some m →
       process_message dummyCollab " 2 " payState = .ok
         { text := paymentSuccessText m,
           suggested_actions := ["Ver menú", "Hacer nuevo pedido"],
           order := none } ({} : ConversationState)) ∧
     (alookup payment_methods (pyStrip (pyLower " 2 ")) = none →
       process_message dummyCollab " 2 " payState = .ok
         { text := paymentRepromptText, suggested_actions := [],
           order := payState.current_order } payState ∧
       payState.pending_payment = true)) :=
  ⟨rfl, claims_C2 dummyCollab dummyCollab " 2 " payState rfl⟩

/-- Claim C3 (corrected).  On a turn classified confirmar_orden (a
direct intent), a current_order that is not None — even an Order with
zero items — yields the full summary Response and sets pendingPayment;
only a current_order of None yields the order-something prompt.  The
truthiness test `if self.conversation_state.current_order` is true for
every Order object, so an existing zero-item Order does NOT take the
prompt branch as the claim states. -/
theorem claims_C3 (c : Collaborators) (t : String) (s : ConversationState)
    (e : ExtractedEntities) (k : ℚ)
    (hp : s.pending_payment = false) (hn : c.nlp = .ok e)
    (hc : c.classify = .ok ("confirmar_orden", k)) (hwf : stateWF s = true) :
    (∀ o, s.current_order = some o →
      ∃ summary, format_order_summary o = .ok summary ∧
        process_message c t s = .ok
          { text := "¡Gracias por tu orden! Tu pedido ha sido confirmado:\n" ++
              summary ++ "\n" ++ paymentOptionsText,
            suggested_actions := [], order := some o }
          { s with pending_payment := true }) ∧
    (s.current_order = none →
      process_message c t s = .ok
        { text := "No hay una orden activa para confirmar. ¿Te gustaría ordenar algo?",
          suggested_actions := ["Ver menú", "Hacer un pedido"], order := none } s) := by
  have hbody := (body_direct c t s e _ k hp hn hc (Or.inr rfl)).trans
    (handle_intent_confirm c (some e) s)
  constructor
  · intro o ho
    have hwfo : orderWF o = true := by simpa [stateWF, ooWF, ho] using hwf
    obtain ⟨summary, hsum⟩ := format_order_summary_ok o hwfo
    refine ⟨summary, hsum, ?_⟩
    apply pm_of_body_ok
    rw [hbody]
    simp only [handle_order_confirmation, ho, hsum]
  · intro ho
    apply pm_of_body_ok
    rw [hbody]
    simp only [handle_order_confirmation, ho]

/-- Witness for claims_C3 on a one-item order. -/
theorem claims_C3_witness :
    oneItemState.pending_payment = false ∧
    confirmCollab.nlp = .ok {} ∧
    confirmCollab.classify = .ok ("confirmar_orden", 9/10) ∧
    stateWF oneItemState = true ∧
    ((∀ o, oneItemState.current_order = some o →
      ∃ summary, format_order_summary o = .ok summary ∧
        process_message confirmCollab "confirmo" oneItemState = .ok
          { text := "¡Gracias por tu orden! Tu pedido ha sido confirmado:\n" ++
              summary ++ "\n" ++ paymentOptionsText,
            suggested_actions := [], order := some o }
          { oneItemState with pending_payment := true }) ∧
    (oneItemState.current_order = none →
      process_message confirmCollab "confirmo" oneItemState = .ok
        { text := "No hay una orden activa para confirmar. ¿Te gustaría ordenar algo?",
          suggested_actions := ["Ver menú", "Hacer un pedido"], order := none }
        oneItemState)) :=
  ⟨rfl, rfl, rfl, by decide,
   claims_C3 confirmCollab "confirmo" oneItemState {} (9/10) rfl rfl rfl (by decide)⟩

/-- Counterexample to claim C3 as stated: on an existing Order object
with zero items, the confirmar_orden turn renders the summary and sets
pendingPayment instead of prompting the user to order something. -/
theorem claims_C3_counterexample :
    ∃ r s', process_message confirmCollab "confirmar pedido" emptyOrderState =
        .ok r s' ∧
      emptyOrderState.current_order = some emptyOrder ∧ emptyOrder.items = [] ∧
      s'.pending_payment = true ∧
      r.text ≠ "No hay una orden activa para confirmar. ¿Te gustaría ordenar algo?" := by
  have h1 : formatMoney 0 = "0.00" := by
    simp [formatMoney]
    decide
  have hsum : format_order_summary emptyOrder =
      .ok ("\n".intercalate (([] : List String) ++
        ["\nTotal Final: $" ++ formatMoney 0,
         "Calorías Totales: " ++ toString (0 : ℤ)])) := rfl
  rw [h1] at hsum
  have h2 : ("\n".intercalate (([] : List String) ++
      ["\nTotal Final: $" ++ "0.00", "Calorías Totales: " ++ toString (0 : ℤ)])) =
      "\nTotal Final: $0.00\nCalorías Totales: 0" := by decide
  rw [h2] at hsum
  have hconf : handle_order_confirmation emptyOrderState = .ok
      { text := "¡Gracias por tu orden! Tu pedido ha sido confirmado:\n" ++
          "\nTotal Final: $0.00\nCalorías Totales: 0" ++ "\n" ++ paymentOptionsText,
        suggested_actions := [], order := some emptyOrder }
      { emptyOrderState with pending_payment := true } := by
    simp only [handle_order_confirmation,
      show emptyOrderState.current_order = some emptyOrder from rfl, hsum]
  have hbody := (body_direct confirmCollab "confirmar pedido" emptyOrderState
      {} _ (9/10) rfl rfl rfl (Or.inr rfl)).trans
    ((handle_intent_confirm confirmCollab (some {}) emptyOrderState).trans hconf)
  refine ⟨_, _, pm_of_body_ok _ _ _ _ _ hbody, rfl, rfl, rfl, by decide⟩

/-- Claim C5 (confirmed).  On an ordenar_bebida turn whose beverage
entity resolves to a menu item (customization tokens well formed, as the
extractor produces them): with no size entity — None or empty — the
Response is the size/price prompt listing the item's sizes and the order
is untouched; with a non-empty size exactly one OrderItem with that size
is appended to the current order, creating the order if absent. -/
theorem claims_C5 (c : Collaborators) (t : String) (s : ConversationState)
    (e : ExtractedEntities) (k : ℚ) (b : String) (mi : MenuItem)
    (hp : s.pending_payment = false) (hn : c.nlp = .ok e)
    (hc : c.classify = .ok ("ordenar_bebida", k))
    (hbeb : e.bebida = some b) (hb : b ≠ "")
    (hsi : c.searchItem b = .ok (some mi))
    (htok : ∀ tok ∈ e.personalizaciones, tokenOK tok = true) :
    ((e.tamano = none ∨ e.tamano = some "") →
      process_message c t s = .ok
        { text := sizePromptText mi, suggested_actions := mi.sizes,
          order := s.current_order }
        { s with last_entities := some e, last_input := some t,
                 predicted_intent := some "ordenar_bebida",
                 mode := .PURCHASE }) ∧
    (∀ sz, e.tamano = some sz → sz ≠ "" →
      ∃ bd, calculate_item_price (beverageItem mi sz e) = .ok bd ∧
        ((s.current_order.getD emptyOrder).add_item (beverageItem mi sz e)).items =
          (s.current_order.getD emptyOrder).items ++ [beverageItem mi sz e] ∧
        process_message c t s = .ok
          { text := addedBeverageText mi (beverageItem mi sz e) e bd,
            suggested_actions := ["Ver personalizaciones", "Confirmar orden", "Agregar más"],
            order := some ((s.current_order.getD emptyOrder).add_item (beverageItem mi sz e)) }
          { s with last_entities := some e, last_input := some t,
                   predicted_intent := some "ordenar_bebida",
                   mode := .PURCHASE,
                   current_order :=
                     some ((s.current_order.getD emptyOrder).add_item (beverageItem mi sz e)) }) := by
  have hbody := body_bebida c t s e k hp hn hc
  have hb2 : optStrTruthy (some b) = true := by
    simp [optStrTruthy, hb]
  constructor
  · intro hta
    have htf : optStrTruthy e.tamano = false := by
      rcases hta with h | h <;> simp [optStrTruthy, h]
    have hcore : handle_order_intent c.searchItem (some e) s.current_order =
        .ok { text := sizePromptText mi, suggested_actions := mi.sizes,
              order := s.current_order } s.current_order := by
      simp only [handle_order_intent, hbeb, Option.getD_some, hb2, hsi, htf]
      simp
    exact pm_of_body_ok _ _ _ _ _
      (hbody.trans (liftOrderHandler_ok _ _ _ _ hcore))
  · intro sz hsz hsznz
    have hsz2 : optStrTruthy (some sz) = true := by
      simp [optStrTruthy, hsznz]
    have hio : itemOK (beverageItem mi sz e) = true := by
      simp only [itemOK, beverageItem]
      exact List.all_eq_true.mpr htok
    obtain ⟨bd, hbd⟩ := calculate_item_price_ok _ hio
    refine ⟨bd, hbd, rfl, ?_⟩
    apply pm_of_body_ok
    refine hbody.trans (liftOrderHandler_ok _ _ _ _ ?_)
    simp only [beverageItem] at hbd
    simp only [handle_order_intent, hbeb, hsz, Option.getD_some, hb2, hsz2,
      hsi, hbd]
    simp [beverageItem]

/-- Witness for claims_C5 on a grande-latte order turn. -/
theorem claims_C5_witness :
    (latteEntities.bebida = some "latte" ∧ ("latte" : String) ≠ "" ∧
     bebidaCollab.searchItem "latte" = .ok (some latte)) ∧
    (∀ sz, latteEntities.tamano = some sz → sz ≠ "" →
      ∃ bd, calculate_item_price (beverageItem latte sz latteEntities) = .ok bd ∧
        ((({} : ConversationState).current_order.getD emptyOrder).add_item
            (beverageItem latte sz latteEntities)).items =
          (({} : ConversationState).current_order.getD emptyOrder).items ++
            [beverageItem latte sz latteEntities] ∧
        process_message bebidaCollab "Quiero un latte grande"
            ({} : ConversationState) = .ok
          { text := addedBeverageText latte (beverageItem latte sz latteEntities)
              latteEntities bd,
            suggested_actions := ["Ver personalizaciones", "Confirmar orden", "Agregar más"],
            order := some ((({} : ConversationState).current_order.getD emptyOrder).add_item
              (beverageItem latte sz latteEntities)) }
          { ({} : ConversationState) with
              last_entities := some latteEntities,
              last_input := some "Quiero un latte grande",
              predicted_intent := some "ordenar_bebida",
              mode := .PURCHASE,
              current_order := some ((({} : ConversationState).current_order.getD
                emptyOrder).add_item (beverageItem latte sz latteEntities)) }) :=
  ⟨⟨rfl, by decide, rfl⟩,
   (claims_C5 bebidaCollab "Quiero un latte grande" {} latteEntities (4/5)
     "latte" latte rfl rfl rfl rfl (by decide) rfl (by simp [latteEntities])).2⟩

/-- Claim C10 (confirmed).  Dispatching ordenar_alimento on a state with
no current order installs a fresh empty Order, then fails on the missing
entities.alimento attribute and returns the generic error Response,
leaving current_order as a non-None empty Order (plus the stored
entities/input/intent and PURCHASE mode): the error path mutates state. -/
theorem claims_C10 (c : Collaborators) (t : String) (s : ConversationState)
    (e : ExtractedEntities) (k : ℚ)
    (hp : s.pending_payment = false) (ho : s.current_order = none)
    (hn : c.nlp = .ok e) (hc : c.classify = .ok ("ordenar_alimento", k)) :
    process_message c t s = .ok orderErrorResponse
      { s with last_entities := some e, last_input := some t,
               predicted_intent := some "ordenar_alimento",
               mode := .PURCHASE, current_order := some emptyOrder } := by
  have hbody := body_alimento c t s e k hp hn hc
  have hfood : handle_food_order_intent c.searchFoodItem (some e) s.current_order =
      .ok orderErrorResponse (some emptyOrder) := by
    simp [handle_food_order_intent, getAlimento, ho]
  exact pm_of_body_ok _ _ _ _ _
    (hbody.trans (liftOrderHandler_ok _ _ _ _ hfood))

/-- Witness for claims_C10 from the fresh conversation state. -/
theorem claims_C10_witness :
    ({} : ConversationState).pending_payment = false ∧
    ({} : ConversationState).current_order = none ∧
    process_message alimentoCollab "quiero un muffin" ({} : ConversationState) =
      .ok orderErrorResponse
        { ({} : ConversationState) with
            last_entities := some {}, last_input := some "quiero un muffin",
            predicted_intent := some "ordenar_alimento",
            mode := .PURCHASE, current_order := some emptyOrder } :=
  ⟨rfl, rfl,
   claims_C10 alimentoCollab "quiero un muffin" {} {} (4/5) rfl rfl rfl rfl⟩

theorem handle_unknown_intent_spec (oo : Option Order) (h : ooWF oo = true) :
    ∃ r su, handle_unknown_intent oo = .ok r oo ∧
      format_current_order_summary oo = .ok su ∧
      r.text = unknownText su ∧
      r.suggested_actions = ["Ver menú", "Hacer pedido", "Ver precios"] ∧
      r.order = oo := by
  obtain ⟨su, hsu⟩ := format_current_order_summary_ok oo h
  refine ⟨{ text := unknownText su,
            suggested_actions := ["Ver menú", "Hacer pedido", "Ver precios"],
            order := oo }, su, ?_, hsu, rfl, rfl, rfl⟩
  simp only [handle_unknown_intent, create_response_with_order, hsu,
    unknownText, unknownBaseText]

/-- The unknown-intent clarification text never equals the cancellation
confirmation, whatever order summary is appended. -/
theorem unknown_text_ne_cancel (su : String) :
    unknownText su ≠
      "He cancelado tu orden. ¿Hay algo más en lo que pueda ayudarte?" := by
  unfold unknownText unknownBaseText
  by_cases h : su = ""
  · rw [if_pos h]
    decide
  · rw [if_neg h]
    intro heq
    have hl := congrArg String.length heq
    rw [String.length_append, String.length_append] at hl
    have hlt : ("He cancelado tu orden. ¿Hay algo más en lo que pueda ayudarte?" : String).length <
        ("No estoy seguro de lo que quieres hacer. ¿Podrías ser más específico?" : String).length := by
      decide
    omega

/-- Claim C8 (corrected).  A processMessage turn classified
cancelar_orden is NOT dispatched to the cancellation handler —
cancelar_orden is commented out of the direct-intent set and matches no
mode branch — so the turn falls to the unknown-intent handler: it
returns the clarification Response (never the cancellation message),
keeps the current order, and only stores the entities, input and
predicted intent; a second cancelar_orden turn behaves the same way.
The state is never replaced by a fresh instance. -/
theorem claims_C8 (c1 c2 : Collaborators) (t1 t2 : String)
    (s : ConversationState) (e1 e2 : ExtractedEntities) (k1 k2 : ℚ)
    (hp : s.pending_payment = false) (hwf : stateWF s = true)
    (hn1 : c1.nlp = .ok e1) (hc1 : c1.classify = .ok ("cancelar_orden", k1))
    (hn2 : c2.nlp = .ok e2) (hc2 : c2.classify = .ok ("cancelar_orden", k2)) :
    ∃ r1 s1 r2 s2,
      process_message c1 t1 s = .ok r1 s1 ∧
      process_message c2 t2 s1 = .ok r2 s2 ∧
      s1.current_order = s.current_order ∧
      s2.current_order = s.current_order ∧
      s1.predicted_intent = some "cancelar_orden" ∧
      s2.predicted_intent = some "cancelar_orden" ∧
      r1.suggested_actions = ["Ver menú", "Hacer pedido", "Ver precios"] ∧
      r2.suggested_actions = ["Ver menú", "Hacer pedido", "Ver precios"] ∧
      r1.text ≠ cancellationResponse.text ∧
      r2.text ≠ cancellationResponse.text := by
  obtain ⟨r1, su1, hr1, hsu1, htext1, hact1, -⟩ :=
    handle_unknown_intent_spec s.current_order hwf
  have hbody1 := body_other c1 t1 s e1 _ k1 hp hn1 hc1
    (by decide) (by decide) (by decide) (by decide) (by decide)
  have hpm1 : process_message c1 t1 s = .ok r1
      { s with last_entities := some e1, last_input := some t1,
               predicted_intent := some "cancelar_orden",
               current_order := s.current_order } :=
    pm_of_body_ok _ _ _ _ _ (hbody1.trans (liftOrderHandler_ok _ _ _ _ hr1))
  obtain ⟨r2, su2, hr2, hsu2, htext2, hact2, -⟩ :=
    handle_unknown_intent_spec s.current_order hwf
  have hbody2 := body_other c2 t2
    { s with last_entities := some e1, last_input := some t1,
             predicted_intent := some "cancelar_orden",
             current_order := s.current_order }
    e2 _ k2 hp hn2 hc2
    (by decide) (by decide) (by decide) (by decide) (by decide)
  have hpm2 := pm_of_body_ok _ _ _ _ _
    (hbody2.trans (liftOrderHandler_ok _ _ _ _ hr2))
  refine ⟨r1, _, r2, _, hpm1, hpm2, rfl, rfl, rfl, rfl, hact1, hact2, ?_, ?_⟩
  · rw [htext1]
    exact unknown_text_ne_cancel su1
  · rw [htext2]
    exact unknown_text_ne_cancel su2

/-- Witness for claims_C8: two cancelar_orden turns on the
empty-items-order state. -/
theorem claims_C8_witness :
    emptyOrderState.pending_payment = false ∧ stateWF emptyOrderState = true ∧
    (∃ r1 s1 r2 s2,
      process_message cancelCollab "cancela la orden" emptyOrderState = .ok r1 s1 ∧
      process_message cancelCollab "cancela la orden" s1 = .ok r2 s2 ∧
      s1.current_order = emptyOrderState.current_order ∧
      s2.current_order = emptyOrderState.current_order ∧
      s1.predicted_intent = some "cancelar_orden" ∧
      s2.predicted_intent = some "cancelar_orden" ∧
      r1.suggested_actions = ["Ver menú", "Hacer pedido", "Ver precios"] ∧
      r2.suggested_actions = ["Ver menú", "Hacer pedido", "Ver precios"] ∧
      r1.text ≠ cancellationResponse.text ∧
      r2.text ≠ cancellationResponse.text) :=
  ⟨rfl, by decide,
   claims_C8 cancelCollab cancelCollab "cancela la orden" "cancela la orden"
     emptyOrderState {} {} (4/5) (4/5) rfl (by decide) rfl rfl rfl rfl⟩

/-- Counterexample to claim C8 as stated: a cancelar_orden turn on a
state holding an (empty-items) order returns the unknown-intent
clarification, not the cancellation confirmation, and the state is not
replaced by a fresh instance — the order survives. -/
theorem claims_C8_counterexample :
    process_message cancelCollab "cancela" emptyOrderState = .ok
      { text := "No estoy seguro de lo que quieres hacer. ¿Podrías ser más específico?",
        suggested_actions := ["Ver menú", "Hacer pedido", "Ver precios"],
        order := some emptyOrder }
      { emptyOrderState with
          last_entities := some {}, last_input := some "cancela",
          predicted_intent := some "cancelar_orden" } ∧
    ("No estoy seguro de lo que quieres hacer. ¿Podrías ser más específico?" : String) ≠
      cancellationResponse.text ∧
    ({ emptyOrderState with
          last_entities := some {}, last_input := some "cancela",
          predicted_intent := some "cancelar_orden" } : ConversationState) ≠
      ({} : ConversationState) ∧
    ({ emptyOrderState with
          last_entities := some {}, last_input := some "cancela",
          predicted_intent := some "cancelar_orden" } : ConversationState).current_order ≠
      none := by
  refine ⟨rfl, by decide, by decide, by decide⟩

theorem lift_respects (f : Option Order → OrderOut) (sa sb : ConversationState)
    (hab : agreesExceptCI sa sb) (r : Response) (sa' : ConversationState)
    (h : liftOrderHandler f sa = .ok r sa') :
    ∃ sb', liftOrderHandler f sb = .ok r sb' ∧ agreesExceptCI sa' sb' := by
  obtain ⟨hpi, hco, hpc, hle, hli, hmo, hcx, hpp⟩ := hab
  simp only [liftOrderHandler] at h
  cases hcore : f sa.current_order with
  | ok r0 oo =>
    rw [hcore] at h
    injection h with h1 h2
    subst h1
    subst h2
    rw [hco] at hcore
    refine ⟨{ sb with current_order := oo }, ?_, ?_⟩
    · simp only [liftOrderHandler, hcore]
    · exact ⟨hpi, rfl, hpc, hle, hli, hmo, hcx, hpp⟩
  | exn oo =>
    rw [hcore] at h
    exact absurd h (by simp)

theorem handle_intent_respects (c : Collaborators) (i : String)
    (e? : Option ExtractedEntities)
    (hfive : i = "ordenar_bebida" ∨ i = "ordenar_alimento" ∨
      i = "consultar_menu" ∨ i = "confirmar_orden" ∨ i = "cancelar_orden")
    (sa sb : ConversationState) (hab : agreesExceptCI sa sb)
    (r : Response) (sa' : ConversationState)
    (h : handle_intent c i e? sa = .ok r sa') :
    ∃ sb', handle_intent c i e? sb = .ok r sb' ∧ agreesExceptCI sa' sb' := by
  rcases hfive with rfl | rfl | rfl | rfl | rfl
  · rw [handle_intent_bebida] at h ⊢
    exact lift_respects _ sa sb hab r sa' h
  · rw [handle_intent_alimento] at h ⊢
    exact lift_respects _ sa sb hab r sa' h
  · rw [handle_intent_menu] at h ⊢
    exact lift_respects _ sa sb hab r sa' h
  · rw [handle_intent_confirm] at h ⊢
    obtain ⟨hpi, hco, hpc, hle, hli, hmo, hcx, hpp⟩ := hab
    cases hoa : sa.current_order with
    | none =>
      have hob : sb.current_order = none := by rw [← hco, hoa]
      simp only [handle_order_confirmation, hoa] at h
      injection h with h1 h2
      subst h1
      subst h2
      refine ⟨sb, ?_, ⟨hpi, hco, hpc, hle, hli, hmo, hcx, hpp⟩⟩
      simp only [handle_order_confirmation, hob]
    | some o =>
      have hob : sb.current_order = some o := by rw [← hco, hoa]
      simp only [handle_order_confirmation, hoa] at h
      cases hfs : format_order_summary o with
      | error err =>
        rw [hfs] at h
        exact absurd h (by simp)
      | ok tt =>
        rw [hfs] at h
        injection h with h1 h2
        subst h1
        subst h2
        refine ⟨{ sb with pending_payment := true }, ?_, ?_⟩
        · simp only [handle_order_confirmation, hob, hfs]
        · exact ⟨hpi, hob.symm, hpc, hle, hli, hmo, hcx, rfl⟩
  · rw [handle_intent_cancel] at h ⊢
    simp only [handle_order_cancellation] at h
    injection h with h1 h2
    subst h1
    subst h2
    exact ⟨{}, rfl, ⟨rfl, rfl, rfl, rfl, rfl, rfl, rfl, rfl⟩⟩

/-- Claim C4 (corrected).  For the five intents whose dispatch-table
handlers accept two arguments — ordenar_bebida, ordenar_alimento,
consultar_menu, confirmar_orden, cancelar_orden — an affirmative
confirmation reply dispatches the stored intent and entities and, when
the dispatch returns normally, yields exactly the Response of a direct
dispatch, the state agreeing except that the pending flag is cleared and
current_intent is set.  For preguntar_precio and unrecognized labels the
dispatch raises TypeError and the two paths return different error
Responses (see the counterexample), so the round-trip is NOT
byte-for-byte for every intent label. -/
theorem claims_C4 (c : Collaborators) (text : String) (s : ConversationState)
    (i : String) (r : Response) (s₁ : ConversationState)
    (hfive : i = "ordenar_bebida" ∨ i = "ordenar_alimento" ∨
      i = "consultar_menu" ∨ i = "confirmar_orden" ∨ i = "cancelar_orden")
    (hpi : s.predicted_intent = some i)
    (haff : is_confirmation text = true)
    (hdisp : handle_intent c i s.last_entities s = .ok r s₁) :
    direct_dispatch c i s.last_entities s = .ok r s₁ ∧
    ∃ s₂, handle_intent_confirmation c text s = .ok r s₂ ∧
      agreesExceptCI s₁ s₂ := by
  constructor
  · simp only [direct_dispatch, hdisp]
  · have hsetup : agreesExceptCI s
        { s with pending_intent_confirmation := false, current_intent := some i } :=
      ⟨rfl, rfl, rfl, rfl, rfl, rfl, rfl, rfl⟩
    obtain ⟨s₂, hh, hagrees⟩ := handle_intent_respects c i s.last_entities hfive
      s _ hsetup r s₁ hdisp
    refine ⟨s₂, ?_, hagrees⟩
    rw [hpi] at hh
    simp only [handle_intent_confirmation, haff, if_true, hpi]
    rw [show handle_intent c i s.last_entities
        { s with predicted_intent := some i, pending_intent_confirmation := false,
                 current_intent := some i } =
        .ok r s₂ from hh]

/-- Witness for claims_C4: confirming a stored cancelar_orden intent. -/
theorem claims_C4_witness :
    cancelPendingState.predicted_intent = some "cancelar_orden" ∧
    is_confirmation "si" = true ∧
    handle_intent dummyCollab "cancelar_orden" cancelPendingState.last_entities
      cancelPendingState = .ok cancellationResponse ({} : ConversationState) ∧
    (direct_dispatch dummyCollab "cancelar_orden" cancelPendingState.last_entities
        cancelPendingState = .ok cancellationResponse ({} : ConversationState) ∧
     ∃ s₂, handle_intent_confirmation dummyCollab "si" cancelPendingState =
        .ok cancellationResponse s₂ ∧
       agreesExceptCI ({} : ConversationState) s₂) :=
  ⟨rfl, by decide, rfl,
   claims_C4 dummyCollab "si" cancelPendingState "cancelar_orden"
     cancellationResponse {} (by decide) rfl (by decide) rfl⟩

/-- Counterexample to claim C4 as stated: with stored intent
preguntar_precio, the affirmative-confirmation path and the
direct-dispatch path both fail on the handler's TypeError but are caught
in different places and return different Responses — not byte-for-byte
equal. -/
theorem claims_C4_counterexample :
    handle_intent_confirmation dummyCollab "si" precioState =
      .ok intentConfirmErrorResponse
        { precioState with
            pending_intent_confirmation := false,
            current_intent := some "preguntar_precio" } ∧
    direct_dispatch dummyCollab "preguntar_precio" precioState.last_entities
        precioState =
      .ok { text := genericErrorText,
            suggested_actions := ["Ver menú", "Empezar de nuevo"],
            order := none } precioState ∧
    intentConfirmErrorResponse.text ≠ genericErrorText :=
  ⟨rfl, rfl, by decide⟩

/-- Witness for claims_C9 on the fresh conversation state. -/
theorem claims_C9_witness :
    stateWF ({} : ConversationState) = true ∧
    ∃ r s', process_message dummyCollab "hola" ({} : ConversationState) =
      .ok r s' ∧ stateWF s' = true :=
  ⟨rfl, claims_C9 dummyCollab "hola" {} rfl⟩

end Barista
